import Mathlib

/-!
Shallow embedding of pg_bulkload's `lib/reader.c` (configuration resolution,
the Reader next-tuple loop with its parse-error quota protocol, and the
Filter / TupleFormer stages), together with theorems settling the spec's
claims about that code.

Modelling conventions:
* C strings are Lean `String`s; `pg_strcasecmp` equality is `keq` (ASCII
  case-insensitive comparison).
* int64 fields are Lean `Int`s; `INT64_MAX` is the explicit constant
  2^63 - 1.  No arithmetic in the modelled paths can overflow at the
  inputs the theorems quantify over (hypotheses keep counts below
  `INT64_MAX` where the (N+1)-st increment matters).
* `ereport(ERROR, ...)` is `Except.error` with a dedicated error datatype.
* External collaborators (PostgreSQL catalog lookups, the file system, the
  function-call manager) enter as parameters of the definitions; the logic
  of reader.c itself is translated line by line.
-/

namespace PgBulkload

/-- int64 maximum, 2^63 - 1 (`INT64_MAX` in reader.c). -/
def INT64_MAX : Int := 9223372036854775807

/-- Parser kinds selectable by the `TYPE` directive (reader.c lines 225-246:
`CreateBinaryParser`/`CreateCSVParser`/`CreateTupleParser`/`CreateFunctionParser`;
the `FIXED` alias maps to the binary variant). -/
inductive ParserKind
  | binary
  | csv
  | tuple
  | functionGen
deriving Repr, DecidableEq

/-- Writer kinds selectable by the `WRITER`/`LOADER` directive
(reader.c lines 247-265). -/
inductive WriterKind
  | direct
  | buffered
  | parallel
deriving Repr, DecidableEq

/-- `ON_DUPLICATE` choices (reader.c lines 93-98 and 287-297). -/
inductive OnDuplicate
  | onDupError
  | removeNew
  | removeOld
deriving Repr, DecidableEq

/-- Errors raised during control-file resolution (the `ereport(ERROR, ...)`
sites of `ParseControlFileLine` / `ParseControlFile`). -/
inductive CfgErr
  | duplicateSpec (kw : String)
  | invalidChoice (kw v : String)
  | invalidInt (v : String)
  | intBelowMin (v : String)
  | invalidBool (v : String)
  | invalidKeyword (kw : String)
  | noType
  | noTable
  | noInfile
  | sameFileName
deriving Repr, DecidableEq

/-- The configuration-carrying fields of the `Reader` struct, as touched by
`ParseControlFileLine` and `ParseControlFile`.  `relid` stores the `TABLE`
target name (`RangeVarGetRelid(..., false)` never yields `InvalidOid`, so
`none` models `InvalidOid` = "not yet set").  Sentinels from `ReaderCreate`
(reader.c lines 80-83): `max_parse_errors = max_dup_errors = -2`,
`limit = INT64_MAX`. -/
structure Reader where
  relid : Option String
  infile : Option String
  logfile : Option String
  parse_badfile : Option String
  dup_badfile : Option String
  parser : Option ParserKind
  writer : Option WriterKind
  max_parse_errors : Int
  max_dup_errors : Int
  limit : Int
  on_duplicate : OnDuplicate
  verbose : Bool
deriving Repr, DecidableEq

/-- Reader state as `ReaderCreate` palloc0s and presets it
(reader.c lines 80-83). -/
def initReader : Reader :=
  { relid := none, infile := none, logfile := none, parse_badfile := none,
    dup_badfile := none, parser := none, writer := none,
    max_parse_errors := -2, max_dup_errors := -2, limit := INT64_MAX,
    on_duplicate := .onDupError, verbose := false }

/-- ASCII upper-casing of one character's code point. -/
def upCode (c : Char) : Nat :=
  if 97 ≤ c.toNat ∧ c.toNat ≤ 122 then c.toNat - 32 else c.toNat

/-- `pg_strcasecmp(a, b) == 0`: ASCII case-insensitive string equality. -/
def keq (a b : String) : Bool :=
  a.data.map upCode == b.data.map upCode

/-- `choice` (reader.c lines 100-114): find the case-insensitive index of
`key` in `keys`; `none` models the `ereport(ERROR, "invalid ...")` branch. -/
def choice (key : String) (keys : List String) : Option Nat :=
  keys.findIdx? (fun k => keq key k)

/-- Modelled from the spec: `ParseInt64` lives in `pg_strutil.c`, which is not
part of this repository snapshot.  Per the spec's configuration contract it
parses the directive value as a 64-bit integer and fails resolution when the
value is malformed or below the given minimum. -/
def parseInt64 (s : String) (minValue : Int) : Except CfgErr Int :=
  let isNeg : Bool := s.data.head? = some '-'
  let core : List Char := if isNeg then s.data.drop 1 else s.data
  if core.isEmpty || !core.all Char.isDigit then
    .error (.invalidInt s)
  else
    let mag : Int := Int.ofNat (core.foldl (fun n c => n * 10 + (c.toNat - 48)) 0)
    let n : Int := if isNeg then -mag else mag
    if n < minValue then .error (.intBelowMin s)
    else if n > INT64_MAX then .error (.invalidInt s)
    else .ok n

/-- Modelled from the spec: `ParseBoolean` lives in `pg_strutil.c`, which is
not part of this repository snapshot.  Per the spec `VERBOSE` takes a boolean
value; the usual PostgreSQL spellings are accepted case-insensitively. -/
def parseBoolean (s : String) : Except CfgErr Bool :=
  if keq s "TRUE" || keq s "YES" || keq s "ON" || keq s "T" || keq s "Y" || keq s "1" then
    .ok true
  else if keq s "FALSE" || keq s "NO" || keq s "OFF" || keq s "F" || keq s "N" || keq s "0" then
    .ok false
  else
    .error (.invalidBool s)

/-- The TYPE directive's dispatch table (reader.c lines 227-242): index into
`{BINARY, FIXED, CSV, TUPLE, FUNCTION}`. -/
def typeChoiceOf : Nat → ParserKind
  | 0 => .binary
  | 1 => .binary
  | 2 => .csv
  | 3 => .tuple
  | _ => .functionGen

/-- The WRITER directive's dispatch table (reader.c lines 250-261). -/
def writerChoiceOf : Nat → WriterKind
  | 0 => .direct
  | 1 => .buffered
  | _ => .parallel

/-- The ON_DUPLICATE dispatch table (reader.c lines 289-296). -/
def onDupChoiceOf : Nat → OnDuplicate
  | 0 => .onDupError
  | 1 => .removeNew
  | _ => .removeOld

/-- The `TABLE` branch (reader.c lines 194-200): `ASSERT_ONCE` then record
the target relation. -/
def applyTABLE (rd : Reader) (kw v : String) : Except CfgErr Reader :=
  if rd.relid.isSome then .error (.duplicateSpec kw)
  else .ok { rd with relid := some v }

/-- The `INFILE` branch (reader.c lines 201-206). -/
def applyINFILE (rd : Reader) (kw v : String) : Except CfgErr Reader :=
  if rd.infile.isSome then .error (.duplicateSpec kw)
  else .ok { rd with infile := some v }

/-- The `LOGFILE` branch (reader.c lines 207-212). -/
def applyLOGFILE (rd : Reader) (kw v : String) : Except CfgErr Reader :=
  if rd.logfile.isSome then .error (.duplicateSpec kw)
  else .ok { rd with logfile := some v }

/-- The `PARSE_BADFILE` branch (reader.c lines 213-218). -/
def applyPARSE_BADFILE (rd : Reader) (kw v : String) : Except CfgErr Reader :=
  if rd.parse_badfile.isSome then .error (.duplicateSpec kw)
  else .ok { rd with parse_badfile := some v }

/-- The `DUPLICATE_BADFILE` branch (reader.c lines 219-224). -/
def applyDUPLICATE_BADFILE (rd : Reader) (kw v : String) : Except CfgErr Reader :=
  if rd.dup_badfile.isSome then .error (.duplicateSpec kw)
  else .ok { rd with dup_badfile := some v }

/-- The `TYPE` branch (reader.c lines 225-246). -/
def applyTYPE (rd : Reader) (kw v : String) : Except CfgErr Reader :=
  if rd.parser.isSome then .error (.duplicateSpec kw)
  else
    match choice v ["BINARY", "FIXED", "CSV", "TUPLE", "FUNCTION"] with
    | none => .error (.invalidChoice kw v)
    | some i => .ok { rd with parser := some (typeChoiceOf i) }

/-- The `WRITER` / `LOADER` branch (reader.c lines 247-265). -/
def applyWRITER (rd : Reader) (kw v : String) : Except CfgErr Reader :=
  if rd.writer.isSome then .error (.duplicateSpec kw)
  else
    match choice v ["DIRECT", "BUFFERED", "PARALLEL"] with
    | none => .error (.invalidChoice kw v)
    | some i => .ok { rd with writer := some (writerChoiceOf i) }

/-- The `PARSE_ERRORS` / `MAX_ERR_CNT` branch (reader.c lines 266-273):
guard against a second occurrence (the field left its `-2` sentinel), parse
with minimum -1, and store -1 as `INT64_MAX`. -/
def applyPARSE_ERRORS (rd : Reader) (kw v : String) : Except CfgErr Reader :=
  if rd.max_parse_errors ≥ -1 then .error (.duplicateSpec kw)
  else
    match parseInt64 v (-1) with
    | .error e => .error e
    | .ok n => .ok { rd with max_parse_errors := if n = -1 then INT64_MAX else n }

/-- The `DUPLICATE_ERRORS` branch (reader.c lines 274-280). -/
def applyDUPLICATE_ERRORS (rd : Reader) (kw v : String) : Except CfgErr Reader :=
  if rd.max_dup_errors ≥ -1 then .error (.duplicateSpec kw)
  else
    match parseInt64 v (-1) with
    | .error e => .error e
    | .ok n => .ok { rd with max_dup_errors := if n = -1 then INT64_MAX else n }

/-- The `LOAD` / `LIMIT` branch (reader.c lines 281-286): the
`ASSERT_ONCE(rd->limit == INT64_MAX)` guard tests the unset sentinel, which
an explicit first value of `INT64_MAX` reproduces. -/
def applyLOAD (rd : Reader) (kw v : String) : Except CfgErr Reader :=
  if rd.limit ≠ INT64_MAX then .error (.duplicateSpec kw)
  else
    match parseInt64 v 0 with
    | .error e => .error e
    | .ok n => .ok { rd with limit := n }

/-- The `ON_DUPLICATE` branch (reader.c lines 287-297): no `ASSERT_ONCE`
guard -- a repeated directive silently overwrites. -/
def applyON_DUPLICATE (rd : Reader) (kw v : String) : Except CfgErr Reader :=
  match choice v ["ERROR", "REMOVE_NEW", "REMOVE_OLD"] with
  | none => .error (.invalidChoice kw v)
  | some i => .ok { rd with on_duplicate := onDupChoiceOf i }

/-- The `VERBOSE` branch (reader.c lines 298-301): no `ASSERT_ONCE` guard --
a repeated directive silently overwrites. -/
def applyVERBOSE (rd : Reader) (kw v : String) : Except CfgErr Reader :=
  match parseBoolean v with
  | .error e => .error e
  | .ok b => .ok { rd with verbose := b }

/-- The fallback branch (reader.c lines 302-308): with no parser yet
instantiated the keyword is immediately invalid; otherwise it is offered to
`ParserParam` (modelled by `pp`) and is invalid when rejected. -/
def applyFALLBACK (pp : ParserKind → String → String → Bool)
    (rd : Reader) (kw v : String) : Except CfgErr Reader :=
  match rd.parser with
  | none => .error (.invalidKeyword kw)
  | some pk => if pp pk kw v then .ok rd else .error (.invalidKeyword kw)

/-- The keyword-dispatch part of `ParseControlFileLine` (reader.c lines
194-309).  The textual tokenizing of a control-file line (trimming, quoting,
comments; lines 127-189) is the excluded key=value plumbing; a directive
arrives here as an already-split `(keyword, value)` pair.  `ASSERT_ONCE`
(declared in reader.h, not in this snapshot) is modelled from the spec's
"each directive is applied at most once (duplicate directives are an error)"
as: raise a duplicate-specification error when the guarded condition -- the
field still holding its unset sentinel -- fails.  `pp` models `ParserParam`:
whether the already-instantiated parser accepts a format-specific keyword. -/
def ParseControlFileLine (pp : ParserKind → String → String → Bool)
    (rd : Reader) (kw v : String) : Except CfgErr Reader :=
  if keq kw "TABLE" then applyTABLE rd kw v
  else if keq kw "INFILE" then applyINFILE rd kw v
  else if keq kw "LOGFILE" then applyLOGFILE rd kw v
  else if keq kw "PARSE_BADFILE" then applyPARSE_BADFILE rd kw v
  else if keq kw "DUPLICATE_BADFILE" then applyDUPLICATE_BADFILE rd kw v
  else if keq kw "TYPE" then applyTYPE rd kw v
  else if keq kw "WRITER" || keq kw "LOADER" then applyWRITER rd kw v
  else if keq kw "PARSE_ERRORS" || keq kw "MAX_ERR_CNT" then applyPARSE_ERRORS rd kw v
  else if keq kw "DUPLICATE_ERRORS" then applyDUPLICATE_ERRORS rd kw v
  else if keq kw "LOAD" || keq kw "LIMIT" then applyLOAD rd kw v
  else if keq kw "ON_DUPLICATE" then applyON_DUPLICATE rd kw v
  else if keq kw "VERBOSE" then applyVERBOSE rd kw v
  else applyFALLBACK pp rd kw v

/-- Folding `ParseControlFileLine` over a sequence of directives, as the two
reading loops of `ParseControlFile` do (reader.c lines 336-367). -/
def applyLines (pp : ParserKind → String → String → Bool) :
    Reader → List (String × String) → Except CfgErr Reader
  | rd, [] => .ok rd
  | rd, (kw, v) :: rest =>
    match ParseControlFileLine pp rd kw v with
    | .error e => .error e
    | .ok rd' => applyLines pp rd' rest

/-- A fully resolved load configuration: every mandatory or defaulted field
of `Reader` made concrete (the state of `rd` when `ParseControlFile`
returns). -/
structure ResolvedConfig where
  relid : String
  infile : String
  logfile : String
  parse_badfile : String
  dup_badfile : String
  parser : ParserKind
  writer : WriterKind
  max_parse_errors : Int
  max_dup_errors : Int
  limit : Int
  on_duplicate : OnDuplicate
  verbose : Bool
deriving Repr, DecidableEq

/-- `ParseControlFile` (reader.c lines 322-494): apply the control-file
directives then the inline-option directives to the same `Reader`, check the
mandatory items (`TYPE`, `TABLE`, `INFILE`, in that order), fill defaults
(derived log/bad-file paths -- passed in as `defLog`/`defPrs`/`defDup` since
they depend on the timestamp, database and namespace catalogs, all external
-- plus `writer := Direct` and quota `:= 50` for fields still at their unset
sentinels), and finally reject any coincidence among the four file paths
(lines 480-493). -/
def ParseControlFile (pp : ParserKind → String → String → Bool)
    (defLog defPrs defDup : String)
    (ctrlLines optLines : List (String × String)) : Except CfgErr ResolvedConfig :=
  match applyLines pp initReader (ctrlLines ++ optLines) with
  | .error e => .error e
  | .ok rd =>
    match rd.parser with
    | none => .error .noType
    | some pk =>
      match rd.relid with
      | none => .error .noTable
      | some tbl =>
        match rd.infile with
        | none => .error .noInfile
        | some inf =>
          let logf := rd.logfile.getD defLog
          let prs := rd.parse_badfile.getD defPrs
          let dupf := rd.dup_badfile.getD defDup
          let wk := rd.writer.getD .direct
          let mpe := if rd.max_parse_errors < -1 then 50 else rd.max_parse_errors
          let mde := if rd.max_dup_errors < -1 then 50 else rd.max_dup_errors
          if inf = logf || inf = prs || inf = dupf ||
             logf = prs || logf = dupf || prs = dupf then
            .error .sameFileName
          else
            .ok { relid := tbl, infile := inf, logfile := logf,
                  parse_badfile := prs, dup_badfile := dupf,
                  parser := pk, writer := wk,
                  max_parse_errors := mpe, max_dup_errors := mde,
                  limit := rd.limit, on_duplicate := rd.on_duplicate,
                  verbose := rd.verbose }

/-! ## ReaderNext: the next-tuple loop and the parse-error quota protocol -/

/-- PostgreSQL sqlerror codes as far as `ReaderNext`'s catch block inspects
them (reader.c lines 589-596): the two codes that are never absorbed are
distinguished; every other code is carried opaquely. -/
inductive SqlErrCode
  | adminShutdown
  | queryCanceled
  | otherCode (code : Nat)
deriving Repr, DecidableEq

/-- The data `ReaderNext`'s catch block reads from an error raised inside
`ParserRead` (or the filter invoked under it): `parser->parsing_field` at
raise time (-1 means "not parsing any field"), the error's sqlerrcode and
message (`"<no error message>"` substituted for a missing message, line 603),
the raw record bytes `ParserDumpRecord` would emit, and `parser->count`, the
ordinal of the input record. -/
structure ErrInfo where
  parsingField : Int
  sqlerrcode : SqlErrCode
  message : String
  rawRecord : String
  count : Int
deriving Repr, DecidableEq

/-- One `ParserRead` outcome: a tuple, end of input (NULL), or a raised
error. -/
inductive ParseOutcome (α : Type)
  | tup (t : α)
  | eofRead
  | raise (e : ErrInfo)
deriving Repr, DecidableEq

/-- What one `ReaderNext` call produces for its caller: a tuple, NULL
("Done": end of input or quota exceeded), or an error re-thrown out of the
function. -/
inductive NextResult (α : Type)
  | tuple (t : α)
  | done
  | rethrown (e : ErrInfo)
deriving Repr, DecidableEq

/-- The orchestrator state `ReaderNext` mutates: `rd->parse_errors` and its
quota `rd->max_parse_errors`, the messages handed to `LoggerLog`, the records
appended to the parse-bad file, and whether `rd->parse_fp` has been opened
(the file is created lazily at the first absorbed error, lines 630-635). -/
structure RState where
  parse_errors : Int
  max_parse_errors : Int
  logMessages : List String
  badRecords : List String
  parseFpOpen : Bool
deriving Repr, DecidableEq

/-- The warning `ReaderNext` logs for one absorbed parse error (reader.c
lines 607-617): error ordinal, input-record ordinal, and the current column
exactly when `parser->parsing_field > 0`. -/
def parseErrorMessage (parseErrors : Int) (e : ErrInfo) : String :=
  "Parse error Record " ++ toString parseErrors ++ ": Input Record " ++
    toString e.count ++ ": Rejected" ++
    (if 0 < e.parsingField then " - column " ++ toString e.parsingField else "") ++
    ". " ++ e.message ++ "\n"

/-- The warning logged when the quota is exceeded (reader.c lines 623-626),
reporting the final parse-error count. -/
def maxExceededMessage (parseErrors : Int) : String :=
  "Maximum parse error count exceeded - " ++ toString parseErrors ++
    " error(s) found in input file\n"

/-- The state change of absorbing one recoverable parse error (reader.c
lines 598-637): increment `rd->parse_errors`, log the parse-error warning,
log the quota-exceeded warning when the new count exceeds the quota, open the
parse-bad file if not yet open, and append the raw record to it
(`ParserDumpRecord`). -/
def absorbState (st : RState) (e : ErrInfo) : RState :=
  let pe := st.parse_errors + 1
  let log1 := st.logMessages ++ [parseErrorMessage pe e]
  let log2 := if pe > st.max_parse_errors then log1 ++ [maxExceededMessage pe] else log1
  { parse_errors := pe, max_parse_errors := st.max_parse_errors,
    logMessages := log2, badRecords := st.badRecords ++ [e.rawRecord],
    parseFpOpen := true }

/-- `ReaderNext` (reader.c lines 553-644) over an explicit stream of
`ParserRead` outcomes.  Per iteration: a tuple returns, NULL returns Done; a
raised error is re-thrown when `parser->parsing_field < 0` or its code is
ADMIN_SHUTDOWN / QUERY_CANCELED, and is otherwise absorbed (`absorbState`),
after which the loop stops at Done when the new count exceeds the quota and
advances to the next record otherwise.  The result carries the final state
and the unconsumed remainder of the stream. -/
def ReaderNext (st : RState) :
    List (ParseOutcome α) → NextResult α × RState × List (ParseOutcome α)
  | [] => (.done, st, [])
  | .tup t :: rest => (.tuple t, st, rest)
  | .eofRead :: rest => (.done, st, rest)
  | .raise e :: rest =>
    if e.parsingField < 0 then (.rethrown e, st, rest)
    else if e.sqlerrcode = .adminShutdown ∨ e.sqlerrcode = .queryCanceled then
      (.rethrown e, st, rest)
    else
      let st' := absorbState st e
      if st'.parse_errors > st.max_parse_errors then (.done, st', rest)
      else ReaderNext st' rest

/-- Recoverable in the sense of `ReaderNext`'s catch block: raised while some
field (or the filter stage) was being processed, and not one of the two
never-absorbed sqlerror codes. -/
def recoverableErr (e : ErrInfo) : Prop :=
  0 ≤ e.parsingField ∧ e.sqlerrcode ≠ .adminShutdown ∧ e.sqlerrcode ≠ .queryCanceled

instance (e : ErrInfo) : Decidable (recoverableErr e) := by
  unfold recoverableErr; infer_instance

/-! ## TupleFormer and Filter -/

/-- PostgreSQL's anonymous-record type oid (`RECORDOID`). -/
def RECORDOID : Nat := 2249

/-- PostgreSQL's internal pseudo-type oid (`INTERNALOID`). -/
def INTERNALOID : Nat := 2281

/-- `IsPolymorphicType`: the four polymorphic argument-type oids
(ANYELEMENT, ANYARRAY, ANYNONARRAY, ANYENUM). -/
def isPolymorphicType (t : Nat) : Bool :=
  t = 2283 || t = 2277 || t = 2776 || t = 3500

/-- The attribute fields read by `tupledesc_match` (reader.c lines 939-977):
type oid, dropped flag, and the physical-storage pair (attlen, attalign). -/
structure PgAttr where
  atttypid : Nat
  attisdropped : Bool
  attlen : Int
  attalign : Nat
deriving Repr, DecidableEq

/-- A tuple descriptor: its composite-type oid and attribute list. -/
structure PgTupleDesc where
  tdtypeid : Nat
  attrs : List PgAttr
deriving Repr, DecidableEq

/-- Errors raised by `FilterInit` / `tupledesc_match`. -/
inductive FilterErr
  | nattsMismatch (src dst : Nat)
  | typeMismatch (pos : Nat)
  | storageMismatch (pos : Nat)
  | polymorphicArg
  | returnsSet
  | rettypeMismatch
  | variadicNotSupported
deriving Repr, DecidableEq

/-- The per-attribute loop of `tupledesc_match` (reader.c lines 953-976):
equal type oids pass; otherwise a non-dropped destination column is a type
mismatch, and a dropped one still demands matching physical storage. -/
def attrsMatch : List PgAttr → List PgAttr → Nat → Except FilterErr Unit
  | dattr :: ds, sattr :: ss, i =>
    if dattr.atttypid = sattr.atttypid then attrsMatch ds ss (i + 1)
    else if !dattr.attisdropped then .error (.typeMismatch (i + 1))
    else if dattr.attlen ≠ sattr.attlen || dattr.attalign ≠ sattr.attalign then
      .error (.storageMismatch (i + 1))
    else attrsMatch ds ss (i + 1)
  | _, _, _ => .ok ()

/-- `tupledesc_match` (reader.c lines 939-977): the shape check between the
target table's descriptor and a function-result descriptor. -/
def tupledesc_match (dst src : PgTupleDesc) : Except FilterErr Unit :=
  if dst.attrs.length ≠ src.attrs.length then
    .error (.nattsMismatch src.attrs.length dst.attrs.length)
  else attrsMatch dst.attrs src.attrs 0

/-- The `Filter` struct fields used by `FilterInit` and `FilterTuple`. -/
structure Filter where
  funcstr : Option String
  funcid : Nat
  nargs : Nat
  argtypes : List Nat
  fn_strict : Bool
  fn_ndargs : Nat
  tupledesc_matched : Bool
deriving Repr, DecidableEq

/-- The catalog data `FilterInit` reads about the filter function
(`ParseFunction` + the PROCOID syscache row): argument types, return type,
returns-set / strict / variadic flags, number of argument defaults,
`build_function_result_tupdesc_t`'s OUT-parameter descriptor when the return
type is RECORD, and whether `get_typtype(prorettype)` is composite. -/
structure ProcInfo where
  oid : Nat
  argtypes : List Nat
  prorettype : Nat
  proretset : Bool
  proisstrict : Bool
  pronargdefaults : Nat
  provariadic : Nat
  outParamDesc : Option PgTupleDesc
  rettypeComposite : Bool
deriving Repr, DecidableEq

/-- `FilterInit` (reader.c lines 979-1096).  A filter-less reader returns
unchanged.  Otherwise: reject polymorphic / internal argument types, reject
set-returning functions, then decide the initial `tupledesc_matched` flag:
true when the return type oid equals the target descriptor's type oid; for a
RECORD return type, validate the OUT-parameter descriptor against the target
once and set true when such a descriptor exists (a RECORD result without one
leaves the flag unset); any other non-composite return type is an error, and
a composite one leaves the flag unset.  Reject variadic functions, then take
over strictness and the default-argument count.  (Evaluating the default
argument expressions, lines 1040-1082, calls the executor and is not part of
the shape logic.) -/
def FilterInit (proc : ProcInfo) (desc : PgTupleDesc) (filter : Filter) :
    Except FilterErr Filter :=
  match filter.funcstr with
  | none => .ok filter
  | some _ =>
    if proc.argtypes.any (fun t => isPolymorphicType t || t = INTERNALOID) then
      .error .polymorphicArg
    else if proc.proretset then .error .returnsSet
    else
      let matchedInit : Except FilterErr Bool :=
        if proc.prorettype = desc.tdtypeid then .ok true
        else if proc.prorettype = RECORDOID then
          match proc.outParamDesc with
          | some resultDesc =>
            match tupledesc_match desc resultDesc with
            | .error e => .error e
            | .ok _ => .ok true
          | none => .ok filter.tupledesc_matched
        else if !proc.rettypeComposite then .error .rettypeMismatch
        else .ok filter.tupledesc_matched
      match matchedInit with
      | .error e => .error e
      | .ok matched =>
        if proc.provariadic ≠ 0 then .error .variadicNotSupported
        else
          .ok { filter with
                funcid := proc.oid, nargs := proc.argtypes.length,
                argtypes := proc.argtypes, tupledesc_matched := matched,
                fn_ndargs := proc.pronargdefaults,
                fn_strict := proc.proisstrict }

/-- The `TupleFormer` fields `FilterTuple` and `TupleFormerNullTuple` read:
the target descriptor and the current argument values / null flags (the
`values` / `isnull` arrays, sized at least `filter->nargs`). -/
structure TupleFormer where
  desc : PgTupleDesc
  values : List Int
  isnull : List Bool
deriving Repr, DecidableEq

/-- A formed heap tuple (`heap_form_tuple` output) as its visible
values / null flags. -/
structure ModelTuple where
  values : List Int
  isnull : List Bool
deriving Repr, DecidableEq

/-- `TupleFormerNullTuple` (reader.c lines 910-917): zero every value, set
every null flag for the descriptor's width, and form the tuple. -/
def TupleFormerNullTuple (former : TupleFormer) : ModelTuple :=
  { values := List.replicate former.desc.attrs.length 0,
    isnull := List.replicate former.desc.attrs.length true }

/-- The datum a filter-function invocation hands back when it returns a
non-null composite value: the heap tuple header's type oid and typmod (what
`HeapTupleHeaderGetTypeId` / `HeapTupleHeaderGetTypMod` read). -/
structure FnTupleValue where
  typeId : Nat
  typmod : Int
deriving Repr, DecidableEq

/-- The behavior of one filter-function invocation: raise an error inside
the sub-transaction, return SQL NULL, or return a composite value. -/
inductive FnResult
  | fnError (e : ErrInfo)
  | fnNull
  | fnTuple (v : FnTupleValue)
deriving Repr, DecidableEq

/-- What `FilterTuple` hands back: a tuple formed from the former
(all-null paths), the function's own result tuple, an error re-thrown out of
the sub-transaction, or a shape-mismatch error from `tupledesc_match`. -/
inductive FTRes
  | formed (t : ModelTuple)
  | funcResult (v : FnTupleValue)
  | reraised (e : ErrInfo)
  | shapeError (e : FilterErr)
deriving Repr, DecidableEq

/-- One `FilterTuple` call's observable outcome: its result, the filter
state afterwards (the `tupledesc_matched` cache), whether the function was
invoked at all, whether `tupledesc_match` ran during this call, and the
final value of `*parsing_field`. -/
structure FTOut where
  res : FTRes
  filter : Filter
  invoked : Bool
  validated : Bool
  parsingField : Int
deriving Repr, DecidableEq

/-- `FilterTuple` (reader.c lines 1111-1215).  If the function is strict and
any of its `nargs` arguments is null, return an all-null tuple without
invoking the function (lines 1128-1135).  Otherwise invoke it inside a
sub-transaction (`fnres` is what the invocation does; `*parsing_field` is 0
while it runs and -1 after it returns): an error propagates after the
sub-transaction is rolled back; a NULL result becomes an all-null tuple; for
a tuple result, when `tupledesc_matched` is still unset, look up the
result's row-type descriptor (`lookupRowtype` models
`lookup_rowtype_tupdesc`) and validate it against the target descriptor,
setting the cache flag only when the result's type oid is not RECORD (lines
1196-1209). -/
def FilterTuple (lookupRowtype : Nat → Int → PgTupleDesc)
    (filter : Filter) (former : TupleFormer) (pf0 : Int) (fnres : FnResult) : FTOut :=
  if filter.fn_strict && (former.isnull.take filter.nargs).any id then
    { res := .formed (TupleFormerNullTuple former), filter := filter,
      invoked := false, validated := false, parsingField := pf0 }
  else
    match fnres with
    | .fnError e =>
      { res := .reraised e, filter := filter,
        invoked := true, validated := false, parsingField := 0 }
    | .fnNull =>
      { res := .formed (TupleFormerNullTuple former), filter := filter,
        invoked := true, validated := false, parsingField := -1 }
    | .fnTuple v =>
      if filter.tupledesc_matched then
        { res := .funcResult v, filter := filter,
          invoked := true, validated := false, parsingField := -1 }
      else
        match tupledesc_match former.desc (lookupRowtype v.typeId v.typmod) with
        | .error e =>
          { res := .shapeError e, filter := filter,
            invoked := true, validated := true, parsingField := -1 }
        | .ok _ =>
          { res := .funcResult v,
            filter := if v.typeId ≠ RECORDOID then
                        { filter with tupledesc_matched := true }
                      else filter,
            invoked := true, validated := true, parsingField := -1 }

/-! ## Auxiliary definitions for the statements and witnesses -/

/-- The configuration keywords whose handling branch guards against a second
occurrence with `ASSERT_ONCE` (reader.c lines 194-286; canonical spellings).
`ON_DUPLICATE` and `VERBOSE` are absent: their branches (lines 287-301)
carry no such guard. -/
def singleValuedKeywords : List String :=
  ["TABLE", "INFILE", "LOGFILE", "PARSE_BADFILE", "DUPLICATE_BADFILE",
   "TYPE", "WRITER", "PARSE_ERRORS", "DUPLICATE_ERRORS", "LOAD"]

/-- Every keyword spelling the resolver itself recognizes (the conditions of
the if-chain, reader.c lines 194-301, aliases included). -/
def recognizedKeywords : List String :=
  ["TABLE", "INFILE", "LOGFILE", "PARSE_BADFILE", "DUPLICATE_BADFILE",
   "TYPE", "WRITER", "LOADER", "PARSE_ERRORS", "MAX_ERR_CNT",
   "DUPLICATE_ERRORS", "LOAD", "LIMIT", "ON_DUPLICATE", "VERBOSE"]

/-- Whether the field guarded by a single-valued keyword's `ASSERT_ONCE` has
left its unset sentinel (the exact conditions the guards test). -/
def kwTaken (rd : Reader) (kw : String) : Bool :=
  if kw = "TABLE" then rd.relid.isSome
  else if kw = "INFILE" then rd.infile.isSome
  else if kw = "LOGFILE" then rd.logfile.isSome
  else if kw = "PARSE_BADFILE" then rd.parse_badfile.isSome
  else if kw = "DUPLICATE_BADFILE" then rd.dup_badfile.isSome
  else if kw = "TYPE" then rd.parser.isSome
  else if kw = "WRITER" then rd.writer.isSome
  else if kw = "PARSE_ERRORS" then rd.max_parse_errors ≥ -1
  else if kw = "DUPLICATE_ERRORS" then rd.max_dup_errors ≥ -1
  else if kw = "LOAD" then rd.limit ≠ INT64_MAX
  else false

/-- Whether a `ParserRead` outcome is a raised error. -/
def isRaise : ParseOutcome α → Bool
  | .raise _ => true
  | _ => false

/-- Sample target descriptor (an int4 column and a text column) used by the
witness theorems. -/
def sampleDesc : PgTupleDesc :=
  ⟨16384, [⟨23, false, 4, 1⟩, ⟨25, false, (-1 : Int), 2⟩]⟩

/-- Sample recoverable parse errors used by the witness theorems. -/
def sampleErrA : ErrInfo := ⟨2, .otherCode 7, "invalid input syntax", "1|x|", 1⟩

/-- A second sample recoverable parse error. -/
def sampleErrB : ErrInfo := ⟨1, .otherCode 7, "value too long", "2|yy|", 2⟩

/-- A third sample recoverable parse error (field index 0: raised from the
filter stage, no column attribution). -/
def sampleErrC : ErrInfo := ⟨0, .otherCode 22, "missing data", "3|z|", 3⟩

/-- A fresh orchestrator state with the given parse-error quota. -/
def sampleState (maxErrors : Int) : RState := ⟨0, maxErrors, [], [], false⟩

/-- Sample argument buffer whose second argument is null. -/
def sampleFormer : TupleFormer := ⟨sampleDesc, [5, 0], [false, true]⟩

/-- A strict two-argument filter. -/
def strictFilter : Filter := ⟨some "f", 101, 2, [23, 25], true, 0, false⟩

/-- A non-strict zero-argument filter whose result shape is not yet
validated. -/
def unmatchedFilter : Filter := ⟨some "f", 101, 0, [], false, 0, false⟩

/-- An error raised while no field was being parsed
(`parser->parsing_field == -1`). -/
def sampleErrIO : ErrInfo := ⟨-1, .otherCode 9, "io failure", "r4", 4⟩

/-- A query-cancel error raised mid-field. -/
def sampleErrCancel : ErrInfo := ⟨2, .queryCanceled, "canceling statement", "r5", 5⟩

/-- An argument buffer with no nulls (for a zero-argument filter). -/
def emptyFormer : TupleFormer := ⟨sampleDesc, [], []⟩

/-- Monotonicity of one directive application: every `ASSERT_ONCE`-guarded
field that has left its unset sentinel stays set (and the numeric ones keep
their value). -/
def Pres (rd rd' : Reader) : Prop :=
  (rd.relid.isSome → rd'.relid.isSome) ∧
  (rd.infile.isSome → rd'.infile.isSome) ∧
  (rd.logfile.isSome → rd'.logfile.isSome) ∧
  (rd.parse_badfile.isSome → rd'.parse_badfile.isSome) ∧
  (rd.dup_badfile.isSome → rd'.dup_badfile.isSome) ∧
  (rd.parser.isSome → rd'.parser.isSome) ∧
  (rd.writer.isSome → rd'.writer.isSome) ∧
  (rd.max_parse_errors ≥ -1 → rd'.max_parse_errors = rd.max_parse_errors) ∧
  (rd.max_dup_errors ≥ -1 → rd'.max_dup_errors = rd.max_dup_errors) ∧
  (rd.limit ≠ INT64_MAX → rd'.limit = rd.limit)

/-! ## Helper lemmas: keyword dispatch reductions -/

theorem pcfl_TABLE (pp : ParserKind → String → String → Bool) (rd : Reader) (v : String) :
    ParseControlFileLine pp rd "TABLE" v = applyTABLE rd "TABLE" v := by
  simp +decide [ParseControlFileLine]

theorem pcfl_INFILE (pp : ParserKind → String → String → Bool) (rd : Reader) (v : String) :
    ParseControlFileLine pp rd "INFILE" v = applyINFILE rd "INFILE" v := by
  simp +decide [ParseControlFileLine]

theorem pcfl_LOGFILE (pp : ParserKind → String → String → Bool) (rd : Reader) (v : String) :
    ParseControlFileLine pp rd "LOGFILE" v = applyLOGFILE rd "LOGFILE" v := by
  simp +decide [ParseControlFileLine]

theorem pcfl_PARSE_BADFILE (pp : ParserKind → String → String → Bool) (rd : Reader) (v : String) :
    ParseControlFileLine pp rd "PARSE_BADFILE" v = applyPARSE_BADFILE rd "PARSE_BADFILE" v := by
  simp +decide [ParseControlFileLine]

theorem pcfl_DUPLICATE_BADFILE (pp : ParserKind → String → String → Bool) (rd : Reader) (v : String) :
    ParseControlFileLine pp rd "DUPLICATE_BADFILE" v = applyDUPLICATE_BADFILE rd "DUPLICATE_BADFILE" v := by
  simp +decide [ParseControlFileLine]

theorem pcfl_TYPE (pp : ParserKind → String → String → Bool) (rd : Reader) (v : String) :
    ParseControlFileLine pp rd "TYPE" v = applyTYPE rd "TYPE" v := by
  simp +decide [ParseControlFileLine]

theorem pcfl_WRITER (pp : ParserKind → String → String → Bool) (rd : Reader) (v : String) :
    ParseControlFileLine pp rd "WRITER" v = applyWRITER rd "WRITER" v := by
  simp +decide [ParseControlFileLine]

theorem pcfl_PARSE_ERRORS (pp : ParserKind → String → String → Bool) (rd : Reader) (v : String) :
    ParseControlFileLine pp rd "PARSE_ERRORS" v = applyPARSE_ERRORS rd "PARSE_ERRORS" v := by
  simp +decide [ParseControlFileLine]

theorem pcfl_DUPLICATE_ERRORS (pp : ParserKind → String → String → Bool) (rd : Reader) (v : String) :
    ParseControlFileLine pp rd "DUPLICATE_ERRORS" v = applyDUPLICATE_ERRORS rd "DUPLICATE_ERRORS" v := by
  simp +decide [ParseControlFileLine]

theorem pcfl_LOAD (pp : ParserKind → String → String → Bool) (rd : Reader) (v : String) :
    ParseControlFileLine pp rd "LOAD" v = applyLOAD rd "LOAD" v := by
  simp +decide [ParseControlFileLine]

/-! ## Helper lemmas: per-branch monotonicity and field preservation -/

theorem applyTABLE_pres {rd : Reader} {kw v : String} {rd' : Reader}
    (h : applyTABLE rd kw v = .ok rd') : Pres rd rd' := by
  unfold applyTABLE at h
  repeat' split at h
  all_goals first
    | exact Except.noConfusion h
    | (injection h with h; subst h; unfold Pres;
       refine ⟨?_, ?_, ?_, ?_, ?_, ?_, ?_, ?_, ?_, ?_⟩ <;> intro hh <;> simp_all)

theorem applyINFILE_pres {rd : Reader} {kw v : String} {rd' : Reader}
    (h : applyINFILE rd kw v = .ok rd') : Pres rd rd' := by
  unfold applyINFILE at h
  repeat' split at h
  all_goals first
    | exact Except.noConfusion h
    | (injection h with h; subst h; unfold Pres;
       refine ⟨?_, ?_, ?_, ?_, ?_, ?_, ?_, ?_, ?_, ?_⟩ <;> intro hh <;> simp_all)

theorem applyLOGFILE_pres {rd : Reader} {kw v : String} {rd' : Reader}
    (h : applyLOGFILE rd kw v = .ok rd') : Pres rd rd' := by
  unfold applyLOGFILE at h
  repeat' split at h
  all_goals first
    | exact Except.noConfusion h
    | (injection h with h; subst h; unfold Pres;
       refine ⟨?_, ?_, ?_, ?_, ?_, ?_, ?_, ?_, ?_, ?_⟩ <;> intro hh <;> simp_all)

theorem applyPARSE_BADFILE_pres {rd : Reader} {kw v : String} {rd' : Reader}
    (h : applyPARSE_BADFILE rd kw v = .ok rd') : Pres rd rd' := by
  unfold applyPARSE_BADFILE at h
  repeat' split at h
  all_goals first
    | exact Except.noConfusion h
    | (injection h with h; subst h; unfold Pres;
       refine ⟨?_, ?_, ?_, ?_, ?_, ?_, ?_, ?_, ?_, ?_⟩ <;> intro hh <;> simp_all)

theorem applyDUPLICATE_BADFILE_pres {rd : Reader} {kw v : String} {rd' : Reader}
    (h : applyDUPLICATE_BADFILE rd kw v = .ok rd') : Pres rd rd' := by
  unfold applyDUPLICATE_BADFILE at h
  repeat' split at h
  all_goals first
    | exact Except.noConfusion h
    | (injection h with h; subst h; unfold Pres;
       refine ⟨?_, ?_, ?_, ?_, ?_, ?_, ?_, ?_, ?_, ?_⟩ <;> intro hh <;> simp_all)

theorem applyTYPE_pres {rd : Reader} {kw v : String} {rd' : Reader}
    (h : applyTYPE rd kw v = .ok rd') : Pres rd rd' := by
  unfold applyTYPE at h
  repeat' split at h
  all_goals first
    | exact Except.noConfusion h
    | (injection h with h; subst h; unfold Pres;
       refine ⟨?_, ?_, ?_, ?_, ?_, ?_, ?_, ?_, ?_, ?_⟩ <;> intro hh <;> simp_all)

theorem applyWRITER_pres {rd : Reader} {kw v : String} {rd' : Reader}
    (h : applyWRITER rd kw v = .ok rd') : Pres rd rd' := by
  unfold applyWRITER at h
  repeat' split at h
  all_goals first
    | exact Except.noConfusion h
    | (injection h with h; subst h; unfold Pres;
       refine ⟨?_, ?_, ?_, ?_, ?_, ?_, ?_, ?_, ?_, ?_⟩ <;> intro hh <;> simp_all)

theorem applyPARSE_ERRORS_pres {rd : Reader} {kw v : String} {rd' : Reader}
    (h : applyPARSE_ERRORS rd kw v = .ok rd') : Pres rd rd' := by
  unfold applyPARSE_ERRORS at h
  repeat' split at h
  all_goals first
    | exact Except.noConfusion h
    | (injection h with h; subst h; unfold Pres;
       refine ⟨?_, ?_, ?_, ?_, ?_, ?_, ?_, ?_, ?_, ?_⟩ <;> intro hh <;> simp_all)

theorem applyDUPLICATE_ERRORS_pres {rd : Reader} {kw v : String} {rd' : Reader}
    (h : applyDUPLICATE_ERRORS rd kw v = .ok rd') : Pres rd rd' := by
  unfold applyDUPLICATE_ERRORS at h
  repeat' split at h
  all_goals first
    | exact Except.noConfusion h
    | (injection h with h; subst h; unfold Pres;
       refine ⟨?_, ?_, ?_, ?_, ?_, ?_, ?_, ?_, ?_, ?_⟩ <;> intro hh <;> simp_all)

theorem applyLOAD_pres {rd : Reader} {kw v : String} {rd' : Reader}
    (h : applyLOAD rd kw v = .ok rd') : Pres rd rd' := by
  unfold applyLOAD at h
  repeat' split at h
  all_goals first
    | exact Except.noConfusion h
    | (injection h with h; subst h; unfold Pres;
       refine ⟨?_, ?_, ?_, ?_, ?_, ?_, ?_, ?_, ?_, ?_⟩ <;> intro hh <;> simp_all)

theorem applyON_DUPLICATE_pres {rd : Reader} {kw v : String} {rd' : Reader}
    (h : applyON_DUPLICATE rd kw v = .ok rd') : Pres rd rd' := by
  unfold applyON_DUPLICATE at h
  repeat' split at h
  all_goals first
    | exact Except.noConfusion h
    | (injection h with h; subst h; unfold Pres;
       refine ⟨?_, ?_, ?_, ?_, ?_, ?_, ?_, ?_, ?_, ?_⟩ <;> intro hh <;> simp_all)

theorem applyVERBOSE_pres {rd : Reader} {kw v : String} {rd' : Reader}
    (h : applyVERBOSE rd kw v = .ok rd') : Pres rd rd' := by
  unfold applyVERBOSE at h
  repeat' split at h
  all_goals first
    | exact Except.noConfusion h
    | (injection h with h; subst h; unfold Pres;
       refine ⟨?_, ?_, ?_, ?_, ?_, ?_, ?_, ?_, ?_, ?_⟩ <;> intro hh <;> simp_all)

theorem applyFALLBACK_pres {pp : ParserKind → String → String → Bool}
    {rd : Reader} {kw v : String} {rd' : Reader}
    (h : applyFALLBACK pp rd kw v = .ok rd') : Pres rd rd' := by
  unfold applyFALLBACK at h
  repeat' split at h
  all_goals first
    | exact Except.noConfusion h
    | (injection h with h; subst h; unfold Pres;
       refine ⟨?_, ?_, ?_, ?_, ?_, ?_, ?_, ?_, ?_, ?_⟩ <;> intro hh <;> simp_all)

/-- Case analysis of the keyword dispatch: every `ParseControlFileLine`
call runs exactly one branch handler, recorded with the branch's
condition. -/
theorem pcfl_cases (pp : ParserKind → String → String → Bool)
    (rd : Reader) (kw v : String) :
    (keq kw "TABLE" = true ∧ ParseControlFileLine pp rd kw v = applyTABLE rd kw v) ∨
    (keq kw "INFILE" = true ∧ ParseControlFileLine pp rd kw v = applyINFILE rd kw v) ∨
    (keq kw "LOGFILE" = true ∧ ParseControlFileLine pp rd kw v = applyLOGFILE rd kw v) ∨
    (keq kw "PARSE_BADFILE" = true ∧ ParseControlFileLine pp rd kw v = applyPARSE_BADFILE rd kw v) ∨
    (keq kw "DUPLICATE_BADFILE" = true ∧ ParseControlFileLine pp rd kw v = applyDUPLICATE_BADFILE rd kw v) ∨
    (keq kw "TYPE" = true ∧ ParseControlFileLine pp rd kw v = applyTYPE rd kw v) ∨
    ((keq kw "WRITER" = true ∨ keq kw "LOADER" = true) ∧ ParseControlFileLine pp rd kw v = applyWRITER rd kw v) ∨
    ((keq kw "PARSE_ERRORS" = true ∨ keq kw "MAX_ERR_CNT" = true) ∧ ParseControlFileLine pp rd kw v = applyPARSE_ERRORS rd kw v) ∨
    (keq kw "DUPLICATE_ERRORS" = true ∧ ParseControlFileLine pp rd kw v = applyDUPLICATE_ERRORS rd kw v) ∨
    ((keq kw "LOAD" = true ∨ keq kw "LIMIT" = true) ∧ ParseControlFileLine pp rd kw v = applyLOAD rd kw v) ∨
    (keq kw "ON_DUPLICATE" = true ∧ ParseControlFileLine pp rd kw v = applyON_DUPLICATE rd kw v) ∨
    (keq kw "VERBOSE" = true ∧ ParseControlFileLine pp rd kw v = applyVERBOSE rd kw v) ∨
    (ParseControlFileLine pp rd kw v = applyFALLBACK pp rd kw v) := by
  by_cases c1 : keq kw "TABLE" = true
  · refine Or.inl ⟨c1, ?_⟩
    unfold ParseControlFileLine
    rw [if_pos c1]
  by_cases c2 : keq kw "INFILE" = true
  · refine Or.inr (Or.inl ⟨c2, ?_⟩)
    unfold ParseControlFileLine
    rw [if_neg c1, if_pos c2]
  by_cases c3 : keq kw "LOGFILE" = true
  · refine Or.inr (Or.inr (Or.inl ⟨c3, ?_⟩))
    unfold ParseControlFileLine
    rw [if_neg c1, if_neg c2, if_pos c3]
  by_cases c4 : keq kw "PARSE_BADFILE" = true
  · refine Or.inr (Or.inr (Or.inr (Or.inl ⟨c4, ?_⟩)))
    unfold ParseControlFileLine
    rw [if_neg c1, if_neg c2, if_neg c3, if_pos c4]
  by_cases c5 : keq kw "DUPLICATE_BADFILE" = true
  · refine Or.inr (Or.inr (Or.inr (Or.inr (Or.inl ⟨c5, ?_⟩))))
    unfold ParseControlFileLine
    rw [if_neg c1, if_neg c2, if_neg c3, if_neg c4, if_pos c5]
  by_cases c6 : keq kw "TYPE" = true
  · refine Or.inr (Or.inr (Or.inr (Or.inr (Or.inr (Or.inl ⟨c6, ?_⟩)))))
    unfold ParseControlFileLine
    rw [if_neg c1, if_neg c2, if_neg c3, if_neg c4, if_neg c5, if_pos c6]
  by_cases c7 : (keq kw "WRITER" || keq kw "LOADER") = true
  · refine Or.inr (Or.inr (Or.inr (Or.inr (Or.inr (Or.inr (Or.inl ⟨by simpa using c7, ?_⟩))))))
    unfold ParseControlFileLine
    rw [if_neg c1, if_neg c2, if_neg c3, if_neg c4, if_neg c5, if_neg c6, if_pos c7]
  by_cases c8 : (keq kw "PARSE_ERRORS" || keq kw "MAX_ERR_CNT") = true
  · refine Or.inr (Or.inr (Or.inr (Or.inr (Or.inr (Or.inr (Or.inr (Or.inl ⟨by simpa using c8, ?_⟩)))))))
    unfold ParseControlFileLine
    rw [if_neg c1, if_neg c2, if_neg c3, if_neg c4, if_neg c5, if_neg c6, if_neg c7, if_pos c8]
  by_cases c9 : keq kw "DUPLICATE_ERRORS" = true
  · refine Or.inr (Or.inr (Or.inr (Or.inr (Or.inr (Or.inr (Or.inr (Or.inr (Or.inl ⟨c9, ?_⟩))))))))
    unfold ParseControlFileLine
    rw [if_neg c1, if_neg c2, if_neg c3, if_neg c4, if_neg c5, if_neg c6, if_neg c7, if_neg c8, if_pos c9]
  by_cases c10 : (keq kw "LOAD" || keq kw "LIMIT") = true
  · refine Or.inr (Or.inr (Or.inr (Or.inr (Or.inr (Or.inr (Or.inr (Or.inr (Or.inr (Or.inl ⟨by simpa using c10, ?_⟩)))))))))
    unfold ParseControlFileLine
    rw [if_neg c1, if_neg c2, if_neg c3, if_neg c4, if_neg c5, if_neg c6, if_neg c7, if_neg c8, if_neg c9, if_pos c10]
  by_cases c11 : keq kw "ON_DUPLICATE" = true
  · refine Or.inr (Or.inr (Or.inr (Or.inr (Or.inr (Or.inr (Or.inr (Or.inr (Or.inr (Or.inr (Or.inl ⟨c11, ?_⟩))))))))))
    unfold ParseControlFileLine
    rw [if_neg c1, if_neg c2, if_neg c3, if_neg c4, if_neg c5, if_neg c6, if_neg c7, if_neg c8, if_neg c9, if_neg c10, if_pos c11]
  by_cases c12 : keq kw "VERBOSE" = true
  · refine Or.inr (Or.inr (Or.inr (Or.inr (Or.inr (Or.inr (Or.inr (Or.inr (Or.inr (Or.inr (Or.inr (Or.inl ⟨c12, ?_⟩)))))))))))
    unfold ParseControlFileLine
    rw [if_neg c1, if_neg c2, if_neg c3, if_neg c4, if_neg c5, if_neg c6, if_neg c7, if_neg c8, if_neg c9, if_neg c10, if_neg c11, if_pos c12]
  refine Or.inr (Or.inr (Or.inr (Or.inr (Or.inr (Or.inr (Or.inr (Or.inr (Or.inr (Or.inr (Or.inr (Or.inr (?_))))))))))))
  unfold ParseControlFileLine
  rw [if_neg c1, if_neg c2, if_neg c3, if_neg c4, if_neg c5, if_neg c6, if_neg c7, if_neg c8, if_neg c9, if_neg c10, if_neg c11, if_neg c12]

theorem pcfl_pres {pp : ParserKind → String → String → Bool}
    {rd : Reader} {kw v : String} {rd' : Reader}
    (h : ParseControlFileLine pp rd kw v = .ok rd') : Pres rd rd' := by
  rcases pcfl_cases pp rd kw v with
    ⟨_, hc⟩ | ⟨_, hc⟩ | ⟨_, hc⟩ | ⟨_, hc⟩ | ⟨_, hc⟩ | ⟨_, hc⟩ | ⟨_, hc⟩ |
    ⟨_, hc⟩ | ⟨_, hc⟩ | ⟨_, hc⟩ | ⟨_, hc⟩ | ⟨_, hc⟩ | hc <;> rw [hc] at h
  · exact applyTABLE_pres h
  · exact applyINFILE_pres h
  · exact applyLOGFILE_pres h
  · exact applyPARSE_BADFILE_pres h
  · exact applyDUPLICATE_BADFILE_pres h
  · exact applyTYPE_pres h
  · exact applyWRITER_pres h
  · exact applyPARSE_ERRORS_pres h
  · exact applyDUPLICATE_ERRORS_pres h
  · exact applyLOAD_pres h
  · exact applyON_DUPLICATE_pres h
  · exact applyVERBOSE_pres h
  · exact applyFALLBACK_pres h

/-! ## Helper lemmas: branches that leave writer and the two quotas alone -/

theorem applyTABLE_keeps {rd : Reader} {kw v : String} {rd' : Reader}
    (h : applyTABLE rd kw v = .ok rd') :
    rd'.writer = rd.writer ∧ rd'.max_parse_errors = rd.max_parse_errors ∧
      rd'.max_dup_errors = rd.max_dup_errors := by
  unfold applyTABLE at h
  repeat' split at h
  all_goals first
    | exact Except.noConfusion h
    | (injection h with h; subst h; refine ⟨?_, ?_, ?_⟩ <;> simp_all)

theorem applyINFILE_keeps {rd : Reader} {kw v : String} {rd' : Reader}
    (h : applyINFILE rd kw v = .ok rd') :
    rd'.writer = rd.writer ∧ rd'.max_parse_errors = rd.max_parse_errors ∧
      rd'.max_dup_errors = rd.max_dup_errors := by
  unfold applyINFILE at h
  repeat' split at h
  all_goals first
    | exact Except.noConfusion h
    | (injection h with h; subst h; refine ⟨?_, ?_, ?_⟩ <;> simp_all)

theorem applyLOGFILE_keeps {rd : Reader} {kw v : String} {rd' : Reader}
    (h : applyLOGFILE rd kw v = .ok rd') :
    rd'.writer = rd.writer ∧ rd'.max_parse_errors = rd.max_parse_errors ∧
      rd'.max_dup_errors = rd.max_dup_errors := by
  unfold applyLOGFILE at h
  repeat' split at h
  all_goals first
    | exact Except.noConfusion h
    | (injection h with h; subst h; refine ⟨?_, ?_, ?_⟩ <;> simp_all)

theorem applyPARSE_BADFILE_keeps {rd : Reader} {kw v : String} {rd' : Reader}
    (h : applyPARSE_BADFILE rd kw v = .ok rd') :
    rd'.writer = rd.writer ∧ rd'.max_parse_errors = rd.max_parse_errors ∧
      rd'.max_dup_errors = rd.max_dup_errors := by
  unfold applyPARSE_BADFILE at h
  repeat' split at h
  all_goals first
    | exact Except.noConfusion h
    | (injection h with h; subst h; refine ⟨?_, ?_, ?_⟩ <;> simp_all)

theorem applyDUPLICATE_BADFILE_keeps {rd : Reader} {kw v : String} {rd' : Reader}
    (h : applyDUPLICATE_BADFILE rd kw v = .ok rd') :
    rd'.writer = rd.writer ∧ rd'.max_parse_errors = rd.max_parse_errors ∧
      rd'.max_dup_errors = rd.max_dup_errors := by
  unfold applyDUPLICATE_BADFILE at h
  repeat' split at h
  all_goals first
    | exact Except.noConfusion h
    | (injection h with h; subst h; refine ⟨?_, ?_, ?_⟩ <;> simp_all)

theorem applyTYPE_keeps {rd : Reader} {kw v : String} {rd' : Reader}
    (h : applyTYPE rd kw v = .ok rd') :
    rd'.writer = rd.writer ∧ rd'.max_parse_errors = rd.max_parse_errors ∧
      rd'.max_dup_errors = rd.max_dup_errors := by
  unfold applyTYPE at h
  repeat' split at h
  all_goals first
    | exact Except.noConfusion h
    | (injection h with h; subst h; refine ⟨?_, ?_, ?_⟩ <;> simp_all)

theorem applyLOAD_keeps {rd : Reader} {kw v : String} {rd' : Reader}
    (h : applyLOAD rd kw v = .ok rd') :
    rd'.writer = rd.writer ∧ rd'.max_parse_errors = rd.max_parse_errors ∧
      rd'.max_dup_errors = rd.max_dup_errors := by
  unfold applyLOAD at h
  repeat' split at h
  all_goals first
    | exact Except.noConfusion h
    | (injection h with h; subst h; refine ⟨?_, ?_, ?_⟩ <;> simp_all)

theorem applyON_DUPLICATE_keeps {rd : Reader} {kw v : String} {rd' : Reader}
    (h : applyON_DUPLICATE rd kw v = .ok rd') :
    rd'.writer = rd.writer ∧ rd'.max_parse_errors = rd.max_parse_errors ∧
      rd'.max_dup_errors = rd.max_dup_errors := by
  unfold applyON_DUPLICATE at h
  repeat' split at h
  all_goals first
    | exact Except.noConfusion h
    | (injection h with h; subst h; refine ⟨?_, ?_, ?_⟩ <;> simp_all)

theorem applyVERBOSE_keeps {rd : Reader} {kw v : String} {rd' : Reader}
    (h : applyVERBOSE rd kw v = .ok rd') :
    rd'.writer = rd.writer ∧ rd'.max_parse_errors = rd.max_parse_errors ∧
      rd'.max_dup_errors = rd.max_dup_errors := by
  unfold applyVERBOSE at h
  repeat' split at h
  all_goals first
    | exact Except.noConfusion h
    | (injection h with h; subst h; refine ⟨?_, ?_, ?_⟩ <;> simp_all)

theorem applyFALLBACK_keeps {pp : ParserKind → String → String → Bool}
    {rd : Reader} {kw v : String} {rd' : Reader}
    (h : applyFALLBACK pp rd kw v = .ok rd') :
    rd'.writer = rd.writer ∧ rd'.max_parse_errors = rd.max_parse_errors ∧
      rd'.max_dup_errors = rd.max_dup_errors := by
  unfold applyFALLBACK at h
  repeat' split at h
  all_goals first
    | exact Except.noConfusion h
    | (injection h with h; subst h; refine ⟨?_, ?_, ?_⟩ <;> simp_all)

theorem pcfl_untouched {pp : ParserKind → String → String → Bool}
    {rd : Reader} {kw v : String} {rd' : Reader}
    (hW : keq kw "WRITER" = false) (hL : keq kw "LOADER" = false)
    (hP : keq kw "PARSE_ERRORS" = false) (hM : keq kw "MAX_ERR_CNT" = false)
    (hD : keq kw "DUPLICATE_ERRORS" = false)
    (h : ParseControlFileLine pp rd kw v = .ok rd') :
    rd'.writer = rd.writer ∧ rd'.max_parse_errors = rd.max_parse_errors ∧
      rd'.max_dup_errors = rd.max_dup_errors := by
  rcases pcfl_cases pp rd kw v with
    ⟨hk, hc⟩ | ⟨hk, hc⟩ | ⟨hk, hc⟩ | ⟨hk, hc⟩ | ⟨hk, hc⟩ | ⟨hk, hc⟩ | ⟨hk, hc⟩ |
    ⟨hk, hc⟩ | ⟨hk, hc⟩ | ⟨hk, hc⟩ | ⟨hk, hc⟩ | ⟨hk, hc⟩ | hc <;> rw [hc] at h
  · exact applyTABLE_keeps h
  · exact applyINFILE_keeps h
  · exact applyLOGFILE_keeps h
  · exact applyPARSE_BADFILE_keeps h
  · exact applyDUPLICATE_BADFILE_keeps h
  · exact applyTYPE_keeps h
  · rcases hk with hk | hk <;> simp_all
  · rcases hk with hk | hk <;> simp_all
  · simp_all
  · exact applyLOAD_keeps h
  · exact applyON_DUPLICATE_keeps h
  · exact applyVERBOSE_keeps h
  · exact applyFALLBACK_keeps h

/-! ## Helper lemmas: duplicate detection across a directive sequence -/

theorem parseInt64_min {s : String} {m n : Int} (h : parseInt64 s m = .ok n) : m ≤ n := by
  unfold parseInt64 at h
  simp only [] at h
  repeat' split at h
  all_goals first
    | exact Except.noConfusion h
    | (injection h with h; omega)

theorem kwTaken_TABLE (rd : Reader) : kwTaken rd "TABLE" = rd.relid.isSome := by
  simp +decide [kwTaken]

theorem kwTaken_INFILE (rd : Reader) : kwTaken rd "INFILE" = rd.infile.isSome := by
  simp +decide [kwTaken]

theorem kwTaken_LOGFILE (rd : Reader) : kwTaken rd "LOGFILE" = rd.logfile.isSome := by
  simp +decide [kwTaken]

theorem kwTaken_PARSE_BADFILE (rd : Reader) : kwTaken rd "PARSE_BADFILE" = rd.parse_badfile.isSome := by
  simp +decide [kwTaken]

theorem kwTaken_DUPLICATE_BADFILE (rd : Reader) : kwTaken rd "DUPLICATE_BADFILE" = rd.dup_badfile.isSome := by
  simp +decide [kwTaken]

theorem kwTaken_TYPE (rd : Reader) : kwTaken rd "TYPE" = rd.parser.isSome := by
  simp +decide [kwTaken]

theorem kwTaken_WRITER (rd : Reader) : kwTaken rd "WRITER" = rd.writer.isSome := by
  simp +decide [kwTaken]

theorem kwTaken_PARSE_ERRORS (rd : Reader) : kwTaken rd "PARSE_ERRORS" = decide (rd.max_parse_errors ≥ -1) := by
  simp +decide [kwTaken]

theorem kwTaken_DUPLICATE_ERRORS (rd : Reader) : kwTaken rd "DUPLICATE_ERRORS" = decide (rd.max_dup_errors ≥ -1) := by
  simp +decide [kwTaken]

theorem kwTaken_LOAD (rd : Reader) : kwTaken rd "LOAD" = decide (rd.limit ≠ INT64_MAX) := by
  simp +decide [kwTaken]

theorem mem_svk_cases {kw : String} (hmem : kw ∈ singleValuedKeywords) :
    kw = "TABLE" ∨ kw = "INFILE" ∨ kw = "LOGFILE" ∨ kw = "PARSE_BADFILE" ∨
    kw = "DUPLICATE_BADFILE" ∨ kw = "TYPE" ∨ kw = "WRITER" ∨ kw = "PARSE_ERRORS" ∨
    kw = "DUPLICATE_ERRORS" ∨ kw = "LOAD" := by
  simpa [singleValuedKeywords] using hmem

theorem kwTaken_mono_svk {rd rd' : Reader} {kw : String}
    (hmem : kw ∈ singleValuedKeywords)
    (hp : Pres rd rd') (ht : kwTaken rd kw = true) : kwTaken rd' kw = true := by
  obtain ⟨h1, h2, h3, h4, h5, h6, h7, h8, h9, h10⟩ := hp
  rcases mem_svk_cases hmem with rfl | rfl | rfl | rfl | rfl | rfl | rfl | rfl | rfl | rfl <;>
    simp only [kwTaken_TABLE, kwTaken_INFILE, kwTaken_LOGFILE, kwTaken_PARSE_BADFILE,
      kwTaken_DUPLICATE_BADFILE, kwTaken_TYPE, kwTaken_WRITER, kwTaken_PARSE_ERRORS,
      kwTaken_DUPLICATE_ERRORS, kwTaken_LOAD, decide_eq_true_eq] at ht ⊢
  · exact h1 ht
  · exact h2 ht
  · exact h3 ht
  · exact h4 ht
  · exact h5 ht
  · exact h6 ht
  · exact h7 ht
  · exact h8 ht ▸ ht
  · exact h9 ht ▸ ht
  · intro hx
    exact ht ((h10 ht).symm.trans hx)

theorem kwTaken_dup {rd : Reader} {kw : String} (pp : ParserKind → String → String → Bool)
    (hmem : kw ∈ singleValuedKeywords) (ht : kwTaken rd kw = true) (v : String) :
    ParseControlFileLine pp rd kw v = .error (.duplicateSpec kw) := by
  rcases mem_svk_cases hmem with rfl | rfl | rfl | rfl | rfl | rfl | rfl | rfl | rfl | rfl
  · rw [pcfl_TABLE, applyTABLE, if_pos (by simpa using (kwTaken_TABLE rd ▸ ht))]
  · rw [pcfl_INFILE, applyINFILE, if_pos (by simpa using (kwTaken_INFILE rd ▸ ht))]
  · rw [pcfl_LOGFILE, applyLOGFILE, if_pos (by simpa using (kwTaken_LOGFILE rd ▸ ht))]
  · rw [pcfl_PARSE_BADFILE, applyPARSE_BADFILE,
      if_pos (by simpa using (kwTaken_PARSE_BADFILE rd ▸ ht))]
  · rw [pcfl_DUPLICATE_BADFILE, applyDUPLICATE_BADFILE,
      if_pos (by simpa using (kwTaken_DUPLICATE_BADFILE rd ▸ ht))]
  · rw [pcfl_TYPE, applyTYPE, if_pos (by simpa using (kwTaken_TYPE rd ▸ ht))]
  · rw [pcfl_WRITER, applyWRITER, if_pos (by simpa using (kwTaken_WRITER rd ▸ ht))]
  · rw [pcfl_PARSE_ERRORS, applyPARSE_ERRORS,
      if_pos (of_decide_eq_true (kwTaken_PARSE_ERRORS rd ▸ ht))]
  · rw [pcfl_DUPLICATE_ERRORS, applyDUPLICATE_ERRORS,
      if_pos (of_decide_eq_true (kwTaken_DUPLICATE_ERRORS rd ▸ ht))]
  · rw [pcfl_LOAD, applyLOAD, if_pos (of_decide_eq_true (kwTaken_LOAD rd ▸ ht))]

theorem taken_after {pp : ParserKind → String → String → Bool}
    {rd rd' : Reader} {kw v : String}
    (hmem : kw ∈ singleValuedKeywords)
    (hload : kw = "LOAD" → ∀ n, parseInt64 v 0 = .ok n → n ≠ INT64_MAX)
    (h : ParseControlFileLine pp rd kw v = .ok rd') :
    kwTaken rd' kw = true := by
  rcases mem_svk_cases hmem with rfl | rfl | rfl | rfl | rfl | rfl | rfl | rfl | rfl | rfl
  · rw [pcfl_TABLE, applyTABLE] at h
    split at h
    · exact Except.noConfusion h
    · injection h with h; subst h; simp [kwTaken_TABLE]
  · rw [pcfl_INFILE, applyINFILE] at h
    split at h
    · exact Except.noConfusion h
    · injection h with h; subst h; simp [kwTaken_INFILE]
  · rw [pcfl_LOGFILE, applyLOGFILE] at h
    split at h
    · exact Except.noConfusion h
    · injection h with h; subst h; simp [kwTaken_LOGFILE]
  · rw [pcfl_PARSE_BADFILE, applyPARSE_BADFILE] at h
    split at h
    · exact Except.noConfusion h
    · injection h with h; subst h; simp [kwTaken_PARSE_BADFILE]
  · rw [pcfl_DUPLICATE_BADFILE, applyDUPLICATE_BADFILE] at h
    split at h
    · exact Except.noConfusion h
    · injection h with h; subst h; simp [kwTaken_DUPLICATE_BADFILE]
  · rw [pcfl_TYPE, applyTYPE] at h
    split at h
    · exact Except.noConfusion h
    · split at h
      · exact Except.noConfusion h
      · injection h with h; subst h; simp [kwTaken_TYPE]
  · rw [pcfl_WRITER, applyWRITER] at h
    split at h
    · exact Except.noConfusion h
    · split at h
      · exact Except.noConfusion h
      · injection h with h; subst h; simp [kwTaken_WRITER]
  · rw [pcfl_PARSE_ERRORS, applyPARSE_ERRORS] at h
    split at h
    · exact Except.noConfusion h
    · split at h
      · exact Except.noConfusion h
      · rename_i n heq
        injection h with h; subst h
        rw [kwTaken_PARSE_ERRORS]
        have := parseInt64_min heq
        simp only [decide_eq_true_eq]
        split <;> [simp [INT64_MAX]; omega]
  · rw [pcfl_DUPLICATE_ERRORS, applyDUPLICATE_ERRORS] at h
    split at h
    · exact Except.noConfusion h
    · split at h
      · exact Except.noConfusion h
      · rename_i n heq
        injection h with h; subst h
        rw [kwTaken_DUPLICATE_ERRORS]
        have := parseInt64_min heq
        simp only [decide_eq_true_eq]
        split <;> [simp [INT64_MAX]; omega]
  · rw [pcfl_LOAD, applyLOAD] at h
    split at h
    · exact Except.noConfusion h
    · split at h
      · exact Except.noConfusion h
      · rename_i n heq
        injection h with h; subst h
        rw [kwTaken_LOAD]
        simpa using hload rfl n heq

theorem applyLines_cons (pp : ParserKind → String → String → Bool)
    (rd : Reader) (kw v : String) (rest : List (String × String)) :
    applyLines pp rd ((kw, v) :: rest) =
      match ParseControlFileLine pp rd kw v with
      | .error e => .error e
      | .ok rd' => applyLines pp rd' rest := rfl

theorem applyLines_append (pp : ParserKind → String → String → Bool)
    (xs ys : List (String × String)) : ∀ rd : Reader,
    applyLines pp rd (xs ++ ys) =
      match applyLines pp rd xs with
      | .error e => .error e
      | .ok rd' => applyLines pp rd' ys := by
  induction xs with
  | nil => intro rd; rfl
  | cons hd tl ih =>
    intro rd
    rcases hd with ⟨kw, v⟩
    rw [List.cons_append, applyLines_cons, applyLines_cons]
    cases ParseControlFileLine pp rd kw v with
    | error e => rfl
    | ok rd' => exact ih rd'

theorem applyLines_taken_err (pp : ParserKind → String → String → Bool)
    {kw : String} (hmem : kw ∈ singleValuedKeywords) (v' : String)
    (mid post : List (String × String)) : ∀ rd : Reader, kwTaken rd kw = true →
      ∃ e, applyLines pp rd (mid ++ (kw, v') :: post) = .error e := by
  induction mid with
  | nil =>
    intro rd ht
    refine ⟨.duplicateSpec kw, ?_⟩
    rw [List.nil_append, applyLines_cons, kwTaken_dup pp hmem ht v']
  | cons hd tl ih =>
    intro rd ht
    rcases hd with ⟨kw2, v2⟩
    rw [List.cons_append, applyLines_cons]
    cases hstep : ParseControlFileLine pp rd kw2 v2 with
    | error e => exact ⟨e, rfl⟩
    | ok rd2 => exact ih rd2 (kwTaken_mono_svk hmem (pcfl_pres hstep) ht)

theorem parseControlFile_err {pp : ParserKind → String → String → Bool}
    {dl dp dd : String} {ctrlLines optLines : List (String × String)} {e : CfgErr}
    (h : applyLines pp initReader (ctrlLines ++ optLines) = .error e) :
    ParseControlFile pp dl dp dd ctrlLines optLines = .error e := by
  unfold ParseControlFile
  rw [h]

/-! ## Helper lemmas: directive sequences that never touch a field -/

theorem applyLines_untouched (pp : ParserKind → String → String → Bool)
    (lines : List (String × String)) : ∀ rd rd' : Reader,
    applyLines pp rd lines = .ok rd' →
    (∀ l ∈ lines, keq l.1 "WRITER" = false ∧ keq l.1 "LOADER" = false ∧
       keq l.1 "PARSE_ERRORS" = false ∧ keq l.1 "MAX_ERR_CNT" = false ∧
       keq l.1 "DUPLICATE_ERRORS" = false) →
    rd'.writer = rd.writer ∧ rd'.max_parse_errors = rd.max_parse_errors ∧
      rd'.max_dup_errors = rd.max_dup_errors := by
  induction lines with
  | nil =>
    intro rd rd' h _
    injection h with h
    subst h
    exact ⟨rfl, rfl, rfl⟩
  | cons hd tl ih =>
    intro rd rd' h hall
    rcases hd with ⟨kw2, v2⟩
    rw [applyLines_cons] at h
    cases hstep : ParseControlFileLine pp rd kw2 v2 with
    | error e =>
      rw [hstep] at h
      exact Except.noConfusion h
    | ok rdm =>
      rw [hstep] at h
      obtain ⟨hw, hl, hp2, hm, hd2⟩ := hall (kw2, v2) (List.mem_cons_self _ _)
      obtain ⟨u1, u2, u3⟩ := pcfl_untouched hw hl hp2 hm hd2 hstep
      obtain ⟨w1, w2, w3⟩ := ih rdm rd' h (fun l hl' => hall l (List.mem_cons_of_mem _ hl'))
      exact ⟨w1.trans u1, w2.trans u2, w3.trans u3⟩

/-! ## Helper lemmas: the ReaderNext absorb loop -/

theorem absorbState_pe (st : RState) (e : ErrInfo) :
    (absorbState st e).parse_errors = st.parse_errors + 1 := rfl

theorem absorbState_max (st : RState) (e : ErrInfo) :
    (absorbState st e).max_parse_errors = st.max_parse_errors := rfl

theorem absorbState_bad (st : RState) (e : ErrInfo) :
    (absorbState st e).badRecords = st.badRecords ++ [e.rawRecord] := rfl

theorem absorbState_fp (st : RState) (e : ErrInfo) :
    (absorbState st e).parseFpOpen = true := rfl

theorem absorbState_log_ok (st : RState) (e : ErrInfo)
    (h : st.parse_errors + 1 ≤ st.max_parse_errors) :
    (absorbState st e).logMessages =
      st.logMessages ++ [parseErrorMessage (st.parse_errors + 1) e] := by
  unfold absorbState
  simp only []
  rw [if_neg (by omega)]

theorem absorbState_log_exceeded (st : RState) (e : ErrInfo)
    (h : st.parse_errors + 1 > st.max_parse_errors) :
    (absorbState st e).logMessages =
      st.logMessages ++ [parseErrorMessage (st.parse_errors + 1) e,
        maxExceededMessage (st.parse_errors + 1)] := by
  unfold absorbState
  simp only []
  rw [if_pos (by omega)]
  simp

theorem readerNext_raise {α : Type} (st : RState) (e : ErrInfo)
    (rest : List (ParseOutcome α)) :
    ReaderNext st (.raise e :: rest) =
      if e.parsingField < 0 then (.rethrown e, st, rest)
      else if e.sqlerrcode = .adminShutdown ∨ e.sqlerrcode = .queryCanceled then
        (.rethrown e, st, rest)
      else
        if (absorbState st e).parse_errors > st.max_parse_errors then
          (.done, absorbState st e, rest)
        else ReaderNext (absorbState st e) rest := rfl

theorem readerNext_absorb_step {α : Type} (st : RState) (e : ErrInfo)
    (rest : List (ParseOutcome α))
    (hrec : recoverableErr e)
    (hq : st.parse_errors + 1 ≤ st.max_parse_errors) :
    ReaderNext st (.raise e :: rest) = ReaderNext (absorbState st e) rest := by
  obtain ⟨hf, ha, hc⟩ := hrec
  rw [readerNext_raise, if_neg (by omega), if_neg (by simp [ha, hc]),
    if_neg (by rw [absorbState_pe]; omega)]

theorem readerNext_absorb_stop {α : Type} (st : RState) (e : ErrInfo)
    (rest : List (ParseOutcome α))
    (hrec : recoverableErr e)
    (hq : st.parse_errors + 1 > st.max_parse_errors) :
    ReaderNext st (.raise e :: rest) = (.done, absorbState st e, rest) := by
  obtain ⟨hf, ha, hc⟩ := hrec
  rw [readerNext_raise, if_neg (by omega), if_neg (by simp [ha, hc]),
    if_pos (by rw [absorbState_pe]; omega)]

theorem absorb_run {α : Type} (es : List ErrInfo) : ∀ st : RState,
    (∀ e ∈ es, recoverableErr e) →
    st.parse_errors + es.length ≤ st.max_parse_errors →
    ∀ rest : List (ParseOutcome α),
      ReaderNext st (es.map .raise ++ rest) = ReaderNext (es.foldl absorbState st) rest := by
  induction es with
  | nil => intro st _ _ rest; rfl
  | cons e tl ih =>
    intro st hrec hq rest
    rw [List.map_cons, List.cons_append, List.foldl_cons]
    rw [readerNext_absorb_step st e _ (hrec e (List.mem_cons_self _ _))
      (by simp at hq; omega)]
    exact ih (absorbState st e) (fun x hx => hrec x (List.mem_cons_of_mem _ hx))
      (by rw [absorbState_pe, absorbState_max]; simp at hq ⊢; omega) rest

theorem foldl_absorb_pe (es : List ErrInfo) : ∀ st : RState,
    (es.foldl absorbState st).parse_errors = st.parse_errors + es.length ∧
    (es.foldl absorbState st).max_parse_errors = st.max_parse_errors := by
  induction es with
  | nil => intro st; simp
  | cons e tl ih =>
    intro st
    rw [List.foldl_cons]
    obtain ⟨h1, h2⟩ := ih (absorbState st e)
    rw [h1, h2, absorbState_pe, absorbState_max]
    constructor
    · simp
      omega
    · rfl

/-! ## Claim theorems: configuration resolution -/

/-- C3 (counterexample): the claim says every single-valued keyword,
explicitly including `VERBOSE`, fails resolution when set twice -- even
split across the control file and the inline options block.  But the
`VERBOSE` branch (reader.c lines 298-301) has no `ASSERT_ONCE` guard: this
concrete configuration sets `VERBOSE` once in the control file and once in
the options block and still resolves successfully (the second value
silently wins). -/
theorem duplicate_verbose_directive_accepted :
    ParseControlFile (fun _ _ _ => false) "L" "P" "D"
      [("TYPE", "CSV"), ("TABLE", "t"), ("INFILE", "/in"), ("VERBOSE", "YES")]
      [("VERBOSE", "NO")] =
    .ok { relid := "t", infile := "/in", logfile := "L", parse_badfile := "P",
          dup_badfile := "D", parser := .csv, writer := .direct,
          max_parse_errors := 50, max_dup_errors := 50, limit := INT64_MAX,
          on_duplicate := .onDupError, verbose := false } := by
  rfl

/-- C3 (amended): for the ten `ASSERT_ONCE`-guarded keywords (TABLE, INFILE,
LOGFILE, PARSE_BADFILE, DUPLICATE_BADFILE, TYPE, WRITER, PARSE_ERRORS,
DUPLICATE_ERRORS, LOAD) a directive setting the keyword a second time fails
resolution with an error, including when the two occurrences are split
across the control file and the inline options block -- except that a first
`LOAD` whose value is the unset sentinel 9223372036854775807 escapes
detection (hence the side condition), and `ON_DUPLICATE` / `VERBOSE` are not
checked at all (a repeated occurrence silently overwrites, see the
counterexample). -/
theorem duplicate_single_valued_directive_fails
    (pp : ParserKind → String → String → Bool)
    (dl dp dd : String) (ctrl opts pre mid post : List (String × String))
    (kw v v' : String)
    (hmem : kw ∈ singleValuedKeywords)
    (hsplit : ctrl ++ opts = pre ++ ((kw, v) :: (mid ++ ((kw, v') :: post))))
    (hload : kw = "LOAD" → ∀ n, parseInt64 v 0 = .ok n → n ≠ INT64_MAX) :
    ∃ e, ParseControlFile pp dl dp dd ctrl opts = .error e := by
  cases hpre : applyLines pp initReader pre with
  | error e =>
    refine ⟨e, parseControlFile_err ?_⟩
    rw [hsplit, applyLines_append]
    simp only [hpre]
  | ok rd1 =>
    cases hstep : ParseControlFileLine pp rd1 kw v with
    | error e =>
      refine ⟨e, parseControlFile_err ?_⟩
      rw [hsplit, applyLines_append]
      simp only [hpre, applyLines_cons, hstep]
    | ok rd2 =>
      obtain ⟨e, he⟩ :=
        applyLines_taken_err pp hmem v' mid post rd2 (taken_after hmem hload hstep)
      refine ⟨e, parseControlFile_err ?_⟩
      rw [hsplit, applyLines_append]
      simp only [hpre, applyLines_cons, hstep]
      exact he

/-- Witness for the amended C3 at a concrete input: `TABLE` set once in the
control file and once in the options block fails resolution. -/
theorem duplicate_single_valued_directive_fails_witness :
    ∃ e, ParseControlFile (fun _ _ _ => false) "L" "P" "D"
      [("TABLE", "t")] [("TABLE", "u")] = .error e :=
  duplicate_single_valued_directive_fails (fun _ _ _ => false) "L" "P" "D"
    [("TABLE", "t")] [("TABLE", "u")] [] [] [] "TABLE" "t" "u"
    (by decide) rfl (fun h => absurd h (by decide))

/-- C7: after all directives are applied, resolution fills in defaults: with
no WRITER/LOADER directive the writer kind is Direct; with no
PARSE_ERRORS/MAX_ERR_CNT (resp. DUPLICATE_ERRORS) directive the parse-error
(resp. duplicate-error) quota is 50; and a quota directive whose value
parses to -1 ("unlimited") is stored as INT64_MAX = 2^63 - 1, the maximum
representable 64-bit count. -/
theorem resolution_defaults
    {pp : ParserKind → String → String → Bool}
    {dl dp dd : String} {ctrl opts : List (String × String)} {cfg : ResolvedConfig}
    (h : ParseControlFile pp dl dp dd ctrl opts = .ok cfg)
    (habsent : ∀ l ∈ ctrl ++ opts, keq l.1 "WRITER" = false ∧ keq l.1 "LOADER" = false ∧
        keq l.1 "PARSE_ERRORS" = false ∧ keq l.1 "MAX_ERR_CNT" = false ∧
        keq l.1 "DUPLICATE_ERRORS" = false) :
    cfg.writer = .direct ∧ cfg.max_parse_errors = 50 ∧ cfg.max_dup_errors = 50 ∧
    (∀ rd : Reader, ∀ w : String, rd.max_parse_errors < -1 →
      parseInt64 w (-1) = .ok (-1) →
      ∃ rd', ParseControlFileLine pp rd "PARSE_ERRORS" w = .ok rd' ∧
        rd'.max_parse_errors = INT64_MAX) ∧
    (∀ rd : Reader, ∀ w : String, rd.max_dup_errors < -1 →
      parseInt64 w (-1) = .ok (-1) →
      ∃ rd', ParseControlFileLine pp rd "DUPLICATE_ERRORS" w = .ok rd' ∧
        rd'.max_dup_errors = INT64_MAX) := by
  have hcore : cfg.writer = .direct ∧ cfg.max_parse_errors = 50 ∧
      cfg.max_dup_errors = 50 := by
    unfold ParseControlFile at h
    cases happly : applyLines pp initReader (ctrl ++ opts) with
    | error e =>
      rw [happly] at h
      exact Except.noConfusion h
    | ok rd =>
      rw [happly] at h
      obtain ⟨uw, up, ud⟩ :=
        applyLines_untouched pp (ctrl ++ opts) initReader rd happly habsent
      simp only [] at h
      repeat' split at h
      all_goals first
        | exact Except.noConfusion h
        | (injection h with h; subst h;
           refine ⟨?_, ?_, ?_⟩ <;> simp_all [initReader])
  refine ⟨hcore.1, hcore.2.1, hcore.2.2, ?_, ?_⟩
  · intro rd w hm hp
    rw [pcfl_PARSE_ERRORS, applyPARSE_ERRORS, if_neg (by omega), hp]
    exact ⟨_, rfl, by simp⟩
  · intro rd w hm hp
    rw [pcfl_DUPLICATE_ERRORS, applyDUPLICATE_ERRORS, if_neg (by omega), hp]
    exact ⟨_, rfl, by simp⟩

/-- Witness for C7 at a concrete input: a minimal configuration resolves
with writer Direct and both quotas 50, and an explicit `PARSE_ERRORS` /
`DUPLICATE_ERRORS` of -1 is stored as INT64_MAX. -/
theorem resolution_defaults_witness :
    ∃ cfg : ResolvedConfig,
      ParseControlFile (fun _ _ _ => false) "L" "P" "D"
        [("TYPE", "CSV"), ("TABLE", "t"), ("INFILE", "/in")] [] = .ok cfg ∧
      cfg.writer = .direct ∧ cfg.max_parse_errors = 50 ∧ cfg.max_dup_errors = 50 ∧
      (∃ rd', ParseControlFileLine (fun _ _ _ => false) initReader
          "PARSE_ERRORS" "-1" = .ok rd' ∧ rd'.max_parse_errors = INT64_MAX) ∧
      (∃ rd', ParseControlFileLine (fun _ _ _ => false) initReader
          "DUPLICATE_ERRORS" "-1" = .ok rd' ∧ rd'.max_dup_errors = INT64_MAX) := by
  have heq : ParseControlFile (fun _ _ _ => false) "L" "P" "D"
      [("TYPE", "CSV"), ("TABLE", "t"), ("INFILE", "/in")] [] =
      .ok { relid := "t", infile := "/in", logfile := "L", parse_badfile := "P",
            dup_badfile := "D", parser := .csv, writer := .direct,
            max_parse_errors := 50, max_dup_errors := 50, limit := INT64_MAX,
            on_duplicate := .onDupError, verbose := false } := rfl
  have h := resolution_defaults heq (by decide)
  exact ⟨_, heq, h.1, h.2.1, h.2.2.1,
    h.2.2.2.1 initReader "-1" (by decide) (by rfl),
    h.2.2.2.2 initReader "-1" (by decide) (by rfl)⟩

/-- C8: whenever resolution succeeds, the four file paths (INFILE, LOGFILE,
PARSE_BADFILE, DUPLICATE_BADFILE) are pairwise distinct after defaults are
filled in; contrapositively, a configuration whose four paths are not
pairwise distinct at that point always fails resolution (the check at
reader.c lines 480-493 is the last step before success). -/
theorem resolved_paths_pairwise_distinct
    {pp : ParserKind → String → String → Bool}
    {dl dp dd : String} {ctrl opts : List (String × String)} {cfg : ResolvedConfig}
    (h : ParseControlFile pp dl dp dd ctrl opts = .ok cfg) :
    cfg.infile ≠ cfg.logfile ∧ cfg.infile ≠ cfg.parse_badfile ∧
    cfg.infile ≠ cfg.dup_badfile ∧ cfg.logfile ≠ cfg.parse_badfile ∧
    cfg.logfile ≠ cfg.dup_badfile ∧ cfg.parse_badfile ≠ cfg.dup_badfile := by
  unfold ParseControlFile at h
  cases happly : applyLines pp initReader (ctrl ++ opts) with
  | error e =>
    rw [happly] at h
    exact Except.noConfusion h
  | ok rd =>
    rw [happly] at h
    simp only [] at h
    repeat' split at h
    all_goals first
      | exact Except.noConfusion h
      | (injection h with h; subst h;
         rename_i hguard
         refine ⟨?_, ?_, ?_, ?_, ?_, ?_⟩ <;> simp_all)

/-- Witness for C8 at a concrete input. -/
theorem resolved_paths_pairwise_distinct_witness :
    ∃ cfg : ResolvedConfig,
      ParseControlFile (fun _ _ _ => false) "L" "P" "D"
        [("TYPE", "CSV"), ("TABLE", "t"), ("INFILE", "/in")] [] = .ok cfg ∧
      cfg.infile ≠ cfg.logfile ∧ cfg.infile ≠ cfg.parse_badfile ∧
      cfg.infile ≠ cfg.dup_badfile ∧ cfg.logfile ≠ cfg.parse_badfile ∧
      cfg.logfile ≠ cfg.dup_badfile ∧ cfg.parse_badfile ≠ cfg.dup_badfile := by
  have heq : ParseControlFile (fun _ _ _ => false) "L" "P" "D"
      [("TYPE", "CSV"), ("TABLE", "t"), ("INFILE", "/in")] [] =
      .ok { relid := "t", infile := "/in", logfile := "L", parse_badfile := "P",
            dup_badfile := "D", parser := .csv, writer := .direct,
            max_parse_errors := 50, max_dup_errors := 50, limit := INT64_MAX,
            on_duplicate := .onDupError, verbose := false } := rfl
  exact ⟨_, heq, resolved_paths_pairwise_distinct heq⟩

/-- C9: a keyword recognized by none of the resolver's branches fails
resolution immediately when no TYPE directive has been applied yet
(`rd->parser == NULL` short-circuits before `ParserParam` is consulted),
for every possible parser-parameter acceptor -- even one that would accept
the keyword; and once a parser is instantiated, the same keyword is accepted
exactly when that parser's `ParserParam` accepts it. -/
theorem unknown_keyword_before_type_fails
    (pp pp2 : ParserKind → String → String → Bool)
    (rd rd2 : Reader) (kw v : String) (pk : ParserKind)
    (hparser : rd.parser = none)
    (hunknown : ∀ k ∈ recognizedKeywords, keq kw k = false) :
    ParseControlFileLine pp rd kw v = .error (.invalidKeyword kw) ∧
    (rd2.parser = some pk → pp2 pk kw v = true →
      ParseControlFileLine pp2 rd2 kw v = .ok rd2) ∧
    (rd2.parser = some pk → pp2 pk kw v = false →
      ParseControlFileLine pp2 rd2 kw v = .error (.invalidKeyword kw)) := by
  have hT := hunknown "TABLE" (by simp [recognizedKeywords])
  have hI := hunknown "INFILE" (by simp [recognizedKeywords])
  have hLg := hunknown "LOGFILE" (by simp [recognizedKeywords])
  have hPB := hunknown "PARSE_BADFILE" (by simp [recognizedKeywords])
  have hDB := hunknown "DUPLICATE_BADFILE" (by simp [recognizedKeywords])
  have hTy := hunknown "TYPE" (by simp [recognizedKeywords])
  have hW := hunknown "WRITER" (by simp [recognizedKeywords])
  have hLd := hunknown "LOADER" (by simp [recognizedKeywords])
  have hPE := hunknown "PARSE_ERRORS" (by simp [recognizedKeywords])
  have hME := hunknown "MAX_ERR_CNT" (by simp [recognizedKeywords])
  have hDE := hunknown "DUPLICATE_ERRORS" (by simp [recognizedKeywords])
  have hLo := hunknown "LOAD" (by simp [recognizedKeywords])
  have hLi := hunknown "LIMIT" (by simp [recognizedKeywords])
  have hOD := hunknown "ON_DUPLICATE" (by simp [recognizedKeywords])
  have hV := hunknown "VERBOSE" (by simp [recognizedKeywords])
  refine ⟨?_, ?_, ?_⟩
  · rcases pcfl_cases pp rd kw v with
      ⟨hk, hc⟩ | ⟨hk, hc⟩ | ⟨hk, hc⟩ | ⟨hk, hc⟩ | ⟨hk, hc⟩ | ⟨hk, hc⟩ | ⟨hk, hc⟩ |
      ⟨hk, hc⟩ | ⟨hk, hc⟩ | ⟨hk, hc⟩ | ⟨hk, hc⟩ | ⟨hk, hc⟩ | hc
    all_goals first
      | (rw [hc, applyFALLBACK, hparser])
      | simp_all
  · intro h2 hacc
    rcases pcfl_cases pp2 rd2 kw v with
      ⟨hk, hc⟩ | ⟨hk, hc⟩ | ⟨hk, hc⟩ | ⟨hk, hc⟩ | ⟨hk, hc⟩ | ⟨hk, hc⟩ | ⟨hk, hc⟩ |
      ⟨hk, hc⟩ | ⟨hk, hc⟩ | ⟨hk, hc⟩ | ⟨hk, hc⟩ | ⟨hk, hc⟩ | hc
    all_goals first
      | (rw [hc, applyFALLBACK, h2]; simp [hacc])
      | simp_all
  · intro h2 hrej
    rcases pcfl_cases pp2 rd2 kw v with
      ⟨hk, hc⟩ | ⟨hk, hc⟩ | ⟨hk, hc⟩ | ⟨hk, hc⟩ | ⟨hk, hc⟩ | ⟨hk, hc⟩ | ⟨hk, hc⟩ |
      ⟨hk, hc⟩ | ⟨hk, hc⟩ | ⟨hk, hc⟩ | ⟨hk, hc⟩ | ⟨hk, hc⟩ | hc
    all_goals first
      | (rw [hc, applyFALLBACK, h2]; simp [hrej])
      | simp_all

/-- Witness for C9 at a concrete input: `DELIMITER` (a CSV parser keyword)
is rejected before `TYPE`, even under an acceptor that accepts everything,
and accepted after a parser is instantiated. -/
theorem unknown_keyword_before_type_fails_witness :
    ParseControlFileLine (fun _ _ _ => true) initReader "DELIMITER" "," =
      .error (.invalidKeyword "DELIMITER") ∧
    ParseControlFileLine (fun _ _ _ => true)
      { initReader with parser := some .csv } "DELIMITER" "," =
      .ok { initReader with parser := some .csv } := by
  have h := unknown_keyword_before_type_fails (fun _ _ _ => true) (fun _ _ _ => true)
    initReader { initReader with parser := some .csv } "DELIMITER" "," .csv
    rfl (by decide)
  exact ⟨h.1, h.2.1 rfl rfl⟩

/-! ## Claim theorems: the ReaderNext loop -/

/-- C1: with `PARSE_ERRORS = N`, the next-tuple loop continues past exactly
N absorbed recoverable parse errors (after N consecutive absorbed errors it
still returns the next tuple, with the counter at N), and the (N+1)-th
absorbed parse error stops it: the call returns Done with the final
parse-error count N+1, reported in the quota-exceeded log message. -/
theorem parse_error_quota_boundary {α : Type} (N : Nat) (es : List ErrInfo)
    (e : ErrInfo) (t : α) (rest rest' : List (ParseOutcome α)) (st0 : RState)
    (hlen : es.length = N)
    (hrec : ∀ x ∈ es, recoverableErr x) (hrec1 : recoverableErr e)
    (hpe : st0.parse_errors = 0) (hmax : st0.max_parse_errors = (N : Int)) :
    (ReaderNext st0 (es.map .raise ++ .tup t :: rest)).1 = .tuple t ∧
    (ReaderNext st0 (es.map .raise ++ .tup t :: rest)).2.1.parse_errors = (N : Int) ∧
    (ReaderNext st0 (es.map .raise ++ .raise e :: rest')).1 = .done ∧
    (ReaderNext st0 (es.map .raise ++ .raise e :: rest')).2.1.parse_errors =
      (N : Int) + 1 ∧
    maxExceededMessage ((N : Int) + 1) ∈
      (ReaderNext st0 (es.map .raise ++ .raise e :: rest')).2.1.logMessages := by
  have hbound : st0.parse_errors + (es.length : Int) ≤ st0.max_parse_errors := by
    rw [hpe, hmax, hlen]
    omega
  have hrun : ∀ rest : List (ParseOutcome α),
      ReaderNext st0 (es.map .raise ++ rest) =
        ReaderNext (es.foldl absorbState st0) rest :=
    absorb_run es st0 hrec hbound
  obtain ⟨hpeN, hmaxN⟩ := foldl_absorb_pe es st0
  rw [hpe, hlen] at hpeN
  rw [hmax] at hmaxN
  have hstop : ReaderNext (es.foldl absorbState st0) (.raise e :: rest') =
      (.done, absorbState (es.foldl absorbState st0) e, rest') :=
    readerNext_absorb_stop _ e rest' hrec1 (by rw [hpeN, hmaxN]; omega)
  refine ⟨?_, ?_, ?_, ?_, ?_⟩
  · rw [hrun (.tup t :: rest)]
    rfl
  · rw [hrun (.tup t :: rest)]
    show (es.foldl absorbState st0).parse_errors = _
    omega
  · rw [hrun (.raise e :: rest'), hstop]
  · rw [hrun (.raise e :: rest'), hstop]
    show (absorbState _ e).parse_errors = _
    rw [absorbState_pe]
    omega
  · rw [hrun (.raise e :: rest'), hstop]
    show _ ∈ (absorbState _ e).logMessages
    rw [absorbState_log_exceeded _ e (by rw [hpeN, hmaxN]; omega), hpeN]
    simp

/-- Witness for C1 at N = 2 with two recoverable errors and a third
over-quota one. -/
theorem parse_error_quota_boundary_witness :
    (ReaderNext (sampleState 2)
      (([sampleErrA, sampleErrB] : List ErrInfo).map .raise ++
        .tup (0 : Nat) :: [])).1 = .tuple 0 ∧
    (ReaderNext (sampleState 2)
      (([sampleErrA, sampleErrB] : List ErrInfo).map .raise ++
        .raise sampleErrC :: ([] : List (ParseOutcome Nat)))).1 = .done := by
  have h := parse_error_quota_boundary 2 [sampleErrA, sampleErrB] sampleErrC
    (0 : Nat) [] [] (sampleState 2) rfl (by decide) (by decide) rfl rfl
  exact ⟨h.1, h.2.2.1⟩

/-- C5: non-recoverable errors are never absorbed by the quota logic: an
error raised while no field was being parsed (`parsing_field < 0`), or one
carrying ADMIN_SHUTDOWN or QUERY_CANCELED, propagates out of ReaderNext
immediately with the state unchanged (no counter increment, no logging, no
bad-record write), regardless of the remaining quota. -/
theorem nonrecoverable_error_propagates {α : Type} (st : RState) (e : ErrInfo)
    (rest : List (ParseOutcome α))
    (h : e.parsingField < 0 ∨ e.sqlerrcode = .adminShutdown ∨
      e.sqlerrcode = .queryCanceled) :
    ReaderNext st (.raise e :: rest) = (.rethrown e, st, rest) := by
  rw [readerNext_raise]
  by_cases hf : e.parsingField < 0
  · rw [if_pos hf]
  · rw [if_neg hf, if_pos (by rcases h with h | h; exact absurd h hf; exact h)]

/-- Witness for C5: an error raised outside field parsing, and a
query-cancel raised mid-field, both re-thrown with untouched state even with
quota room remaining. -/
theorem nonrecoverable_error_propagates_witness :
    ReaderNext (sampleState 5) ([.raise sampleErrIO, .tup (3 : Nat)]) =
      (.rethrown sampleErrIO, sampleState 5, [.tup 3]) ∧
    ReaderNext (sampleState 5) ([.raise sampleErrCancel, .tup (3 : Nat)]) =
      (.rethrown sampleErrCancel, sampleState 5, [.tup 3]) :=
  ⟨nonrecoverable_error_propagates (sampleState 5) sampleErrIO [.tup 3]
      (by decide),
   nonrecoverable_error_propagates (sampleState 5) sampleErrCancel [.tup 3]
      (by decide)⟩

/-- C6: absorbing one recoverable error (with quota room left) increments
the parse-error counter by exactly one, appends to the log exactly one
message -- built from the error ordinal, the input record's ordinal
(`parser->count`), and the field index when one is known
(`parsing_field > 0`) -- appends the raw offending record verbatim to the
parse-bad file (opening it if needed), and then the loop advances to the
next record of the stream. -/
theorem absorbed_error_bookkeeping {α : Type} (st : RState) (e : ErrInfo)
    (rest : List (ParseOutcome α))
    (hrec : recoverableErr e)
    (hq : st.parse_errors + 1 ≤ st.max_parse_errors) :
    ReaderNext st (.raise e :: rest) = ReaderNext (absorbState st e) rest ∧
    (absorbState st e).parse_errors = st.parse_errors + 1 ∧
    (absorbState st e).logMessages =
      st.logMessages ++ [parseErrorMessage (st.parse_errors + 1) e] ∧
    (absorbState st e).badRecords = st.badRecords ++ [e.rawRecord] ∧
    (absorbState st e).parseFpOpen = true :=
  ⟨readerNext_absorb_step st e rest hrec hq, absorbState_pe st e,
   absorbState_log_ok st e hq, absorbState_bad st e, absorbState_fp st e⟩

/-- Witness for C6: one absorbed error under quota 5, followed by a tuple. -/
theorem absorbed_error_bookkeeping_witness :
    ReaderNext (sampleState 5) ([.raise sampleErrA, .tup (7 : Nat)]) =
      ReaderNext (absorbState (sampleState 5) sampleErrA) [.tup 7] ∧
    (absorbState (sampleState 5) sampleErrA).parse_errors = 1 ∧
    (absorbState (sampleState 5) sampleErrA).logMessages =
      [parseErrorMessage 1 sampleErrA] ∧
    (absorbState (sampleState 5) sampleErrA).badRecords = ["1|x|"] := by
  have h := absorbed_error_bookkeeping (sampleState 5) sampleErrA
    [.tup (7 : Nat)] (by decide) (by decide)
  exact ⟨h.1, h.2.1, h.2.2.1, h.2.2.2.1⟩

/-- C10: (a) a ReaderNext call that absorbs no error leaves the state
untouched -- in particular the parse-bad file is not created (it is opened
lazily inside the absorb path only), so a load with zero parse errors never
creates it; (b) when the counter already equals the quota, the next
offending record is still fully processed before the loop stops: it is
counted (final count quota+1), its parse-error message and the
quota-exceeded message are logged, the raw record is appended to the
parse-bad file and the file is (created and) open -- and only then does the
call return Done. -/
theorem overquota_record_fully_processed {α : Type} (st : RState)
    (stream : List (ParseOutcome α)) (e : ErrInfo)
    (rest : List (ParseOutcome α))
    (hnoerr : ∀ x ∈ stream, isRaise x = false)
    (hrec : recoverableErr e)
    (hq : st.parse_errors = st.max_parse_errors) :
    (ReaderNext st stream).2.1 = st ∧
    ReaderNext st (.raise e :: rest) = (.done, absorbState st e, rest) ∧
    (absorbState st e).parse_errors = st.max_parse_errors + 1 ∧
    (absorbState st e).badRecords = st.badRecords ++ [e.rawRecord] ∧
    (absorbState st e).parseFpOpen = true ∧
    (absorbState st e).logMessages = st.logMessages ++
      [parseErrorMessage (st.parse_errors + 1) e,
       maxExceededMessage (st.parse_errors + 1)] := by
  refine ⟨?_, readerNext_absorb_stop st e rest hrec (by omega),
    by rw [absorbState_pe, hq], absorbState_bad st e, absorbState_fp st e,
    absorbState_log_exceeded st e (by omega)⟩
  cases stream with
  | nil => rfl
  | cons hd tl =>
    cases hd with
    | tup t => rfl
    | eofRead => rfl
    | raise e' => exact absurd (hnoerr (.raise e') (List.mem_cons_self _ _)) (by simp [isRaise])

/-- Witness for C10: a no-error stream leaves the fresh state (closed bad
file) untouched, and with quota 0 the first offending record is processed
and the loop stops at Done. -/
theorem overquota_record_fully_processed_witness :
    (ReaderNext (sampleState 0) [.tup (1 : Nat)]).2.1 = sampleState 0 ∧
    ReaderNext (sampleState 0) ([.raise sampleErrA] : List (ParseOutcome Nat)) =
      (.done, absorbState (sampleState 0) sampleErrA, []) ∧
    (absorbState (sampleState 0) sampleErrA).parse_errors = 1 ∧
    (absorbState (sampleState 0) sampleErrA).parseFpOpen = true := by
  have h := overquota_record_fully_processed (sampleState 0) [.tup (1 : Nat)]
    sampleErrA [] (by decide) (by decide) rfl
  exact ⟨h.1, h.2.1, h.2.2.1, h.2.2.2.2.1⟩

/-! ## Claim theorems: the Filter stage -/

/-- C4: for a strict filter function, if any of its `nargs` input arguments
is null, FilterTuple returns a row whose columns are all null
(`TupleFormerNullTuple`: one null per target column) and does not invoke the
function at all -- whatever the invocation would have produced. -/
theorem strict_filter_null_arg_short_circuit
    (lookupRowtype : Nat → Int → PgTupleDesc) (filter : Filter)
    (former : TupleFormer) (pf0 : Int) (fnres : FnResult)
    (hstrict : filter.fn_strict = true)
    (hnull : (former.isnull.take filter.nargs).any id = true) :
    FilterTuple lookupRowtype filter former pf0 fnres =
      { res := .formed (TupleFormerNullTuple former), filter := filter,
        invoked := false, validated := false, parsingField := pf0 } ∧
    (TupleFormerNullTuple former).isnull =
      List.replicate former.desc.attrs.length true := by
  refine ⟨?_, rfl⟩
  unfold FilterTuple
  rw [if_pos (by rw [hstrict, hnull]; rfl)]

/-- Witness for C4: a strict two-argument filter whose second argument is
null short-circuits to the all-null row without invoking the function. -/
theorem strict_filter_null_arg_short_circuit_witness :
    (FilterTuple (fun _ _ => sampleDesc) strictFilter sampleFormer (-1)
      (.fnTuple ⟨16384, -1⟩)).invoked = false ∧
    (FilterTuple (fun _ _ => sampleDesc) strictFilter sampleFormer (-1)
      (.fnTuple ⟨16384, -1⟩)).res =
      .formed (TupleFormerNullTuple sampleFormer) ∧
    (TupleFormerNullTuple sampleFormer).isnull = [true, true] := by
  have h := strict_filter_null_arg_short_circuit (fun _ _ => sampleDesc)
    strictFilter sampleFormer (-1) (.fnTuple ⟨16384, -1⟩) rfl (by decide)
  rw [h.1]
  exact ⟨rfl, rfl, by decide⟩

/-- C2 (counterexample): the claim says the result shape is validated
exactly once -- also on the first dynamically-shaped record-typed result --
and that every subsequent FilterTuple call skips re-validation.  But the
cache flag is set only when the result's type oid is not RECORD (reader.c
lines 1207-1208): here a filter function keeps returning a RECORD-typed
tuple whose shape matches; the first call validates, leaves
`tupledesc_matched` unset, and the second call validates again. -/
theorem filter_record_result_revalidated :
    (FilterTuple (fun _ _ => sampleDesc) unmatchedFilter emptyFormer (-1)
      (.fnTuple ⟨RECORDOID, -1⟩)).validated = true ∧
    (FilterTuple (fun _ _ => sampleDesc) unmatchedFilter emptyFormer (-1)
      (.fnTuple ⟨RECORDOID, -1⟩)).filter.tupledesc_matched = false ∧
    (FilterTuple (fun _ _ => sampleDesc)
      (FilterTuple (fun _ _ => sampleDesc) unmatchedFilter emptyFormer (-1)
        (.fnTuple ⟨RECORDOID, -1⟩)).filter
      emptyFormer (-1) (.fnTuple ⟨RECORDOID, -1⟩)).validated = true := by
  decide

/-- C2 (amended): once the cache flag `tupledesc_matched` is set, every
FilterTuple call skips re-validation and leaves the filter unchanged; while
it is unset, a matching non-record-typed result is validated and sets the
flag (so subsequent calls skip); a matching RECORD-typed (dynamically
shaped) result is validated but leaves the flag unset, so the shape check
runs again on every such call -- re-validation is skipped only after the
first non-record-typed result, not after a record-typed one. -/
theorem filter_shape_validation_caching
    (lookupRowtype : Nat → Int → PgTupleDesc) (filter : Filter)
    (former : TupleFormer) (pf : Int) (fnres : FnResult) (v : FnTupleValue) :
    (filter.tupledesc_matched = true →
      (FilterTuple lookupRowtype filter former pf fnres).validated = false ∧
      (FilterTuple lookupRowtype filter former pf fnres).filter = filter) ∧
    (filter.tupledesc_matched = false → filter.fn_strict = false →
      tupledesc_match former.desc (lookupRowtype v.typeId v.typmod) = .ok () →
      v.typeId ≠ RECORDOID →
      (FilterTuple lookupRowtype filter former pf (.fnTuple v)).validated = true ∧
      (FilterTuple lookupRowtype filter former pf
        (.fnTuple v)).filter.tupledesc_matched = true) ∧
    (filter.tupledesc_matched = false → filter.fn_strict = false →
      tupledesc_match former.desc (lookupRowtype v.typeId v.typmod) = .ok () →
      v.typeId = RECORDOID →
      (FilterTuple lookupRowtype filter former pf (.fnTuple v)).validated = true ∧
      (FilterTuple lookupRowtype filter former pf (.fnTuple v)).filter = filter) := by
  refine ⟨?_, ?_, ?_⟩
  · intro hm
    unfold FilterTuple
    split
    · exact ⟨rfl, rfl⟩
    · cases fnres with
      | fnError e => exact ⟨rfl, rfl⟩
      | fnNull => exact ⟨rfl, rfl⟩
      | fnTuple v2 => simp [hm]
  · intro hm hstrict hmatch hne
    constructor <;> simp [FilterTuple, hstrict, hm, hmatch, hne]
  · intro hm hstrict hmatch hrec
    constructor <;> simp [FilterTuple, hstrict, hm, hmatch] <;> simp [hrec]

/-- Witness for the amended C2: with the flag unset, a matching
composite-typed (non-RECORD) result is validated and sets the cache flag,
and the call after that skips validation. -/
theorem filter_shape_validation_caching_witness :
    (FilterTuple (fun _ _ => sampleDesc) unmatchedFilter emptyFormer (-1)
      (.fnTuple ⟨16384, -1⟩)).validated = true ∧
    (FilterTuple (fun _ _ => sampleDesc) unmatchedFilter emptyFormer (-1)
      (.fnTuple ⟨16384, -1⟩)).filter.tupledesc_matched = true ∧
    (FilterTuple (fun _ _ => sampleDesc)
      (FilterTuple (fun _ _ => sampleDesc) unmatchedFilter emptyFormer (-1)
        (.fnTuple ⟨16384, -1⟩)).filter
      emptyFormer (-1) (.fnTuple ⟨16384, -1⟩)).validated = false := by
  have h1 := filter_shape_validation_caching (fun _ _ => sampleDesc)
    unmatchedFilter emptyFormer (-1) (.fnTuple ⟨16384, -1⟩) ⟨16384, -1⟩
  obtain ⟨hval, hflag⟩ := h1.2.1 rfl rfl (by rfl) (by decide)
  have h2 := filter_shape_validation_caching (fun _ _ => sampleDesc)
    (FilterTuple (fun _ _ => sampleDesc) unmatchedFilter emptyFormer (-1)
      (.fnTuple ⟨16384, -1⟩)).filter
    emptyFormer (-1) (.fnTuple ⟨16384, -1⟩) ⟨16384, -1⟩
  exact ⟨hval, hflag, (h2.1 hflag).1⟩

end PgBulkload
